import Mathlib

/-
Verification development for the Smart Page Digest side-panel core
(src/sidepanel/sidepanel.js).  JavaScript strings are modelled as Lean
`String`s; the handful of JS string primitives the panel uses are embedded
below as executable functions over `String.data` (the character list), so
that every definition evaluates by kernel reduction.  Fallible JS calls
(promise rejections / thrown exceptions) are modelled with `Except JsError`.
-/

set_option maxRecDepth 100000

namespace SmartPageDigest

/-- Embeds `s.substring(0, n)` (JS `String.prototype.substring` with start 0). -/
def jsSubstring0 (s : String) (n : Nat) : String :=
  String.mk (s.data.take n)

/-- Embeds `s.trim()`: strip whitespace from both ends. -/
def jsTrim (s : String) : String :=
  String.mk (((s.data.dropWhile Char.isWhitespace).reverse.dropWhile Char.isWhitespace).reverse)

/-- Embeds `s.toLowerCase()`. -/
def jsToLower (s : String) : String :=
  String.mk (s.data.map Char.toLower)

/-- Embeds `s.split(sep)` for a one-character separator. -/
def jsSplit (sep : Char) (s : String) : List String :=
  (List.splitOn sep s.data).map String.mk

/-- Embeds `parts.join(sep)` for a one-character separator. -/
def jsJoin (sep : Char) (parts : List String) : String :=
  String.mk (List.intercalate [sep] (parts.map String.data))

/-- Embeds `s.startsWith(pre)`. -/
def jsStartsWith (s pre : String) : Bool :=
  pre.data.isPrefixOf s.data

/-- Substring search on character lists (helper for `jsIncludes`). -/
def jsIncludesAux (pat : List Char) : List Char → Bool
  | [] => pat.isEmpty
  | c :: rest => pat.isPrefixOf (c :: rest) || jsIncludesAux pat rest

/-- Embeds `s.includes(pat)`. -/
def jsIncludes (s pat : String) : Bool :=
  jsIncludesAux pat.data s.data

/-- Concatenation of a list of strings (accumulation order of `+=` in a loop). -/
def strConcat : List String → String
  | [] => ""
  | s :: rest => s ++ strConcat rest

/-- A thrown JS error, as inspected by the panel: its `name` and `message`. -/
structure JsError where
  name : String
  message : String
deriving DecidableEq

/-- Embeds the abort test of `handleGenerateTldr` / `runSummarizer`
(sidepanel.js lines 561-564 and 841-843):
`err.name === 'AbortError' || err.message === 'AbortError' ||
 (err.message && err.message.toLowerCase().includes('abort'))`. -/
def isAbortedErr (e : JsError) : Bool :=
  e.name == "AbortError" || e.message == "AbortError" ||
    (e.message != "" && jsIncludes (jsToLower e.message) "abort")

/-- Embeds the two-clause abort test of `handleGenerateQuiz` (lines 1374-1375):
`err.name === 'AbortError' || (err.message && err.message.toLowerCase().includes('abort'))`. -/
def isAbortedErrLoose (e : JsError) : Bool :=
  e.name == "AbortError" ||
    (e.message != "" && jsIncludes (jsToLower e.message) "abort")

/-- Embeds `/too large/i.test(err.message || '')` (line 848). -/
def containsTooLarge (msg : String) : Bool :=
  jsIncludes (jsToLower msg) "too large"

/-! ## Language resolution (sidepanel.js lines 291-299) -/

/-- Embeds `getOutputLanguage(pageLang)`; the user's `langSelect.value` is the
explicit first argument, `pageLang` is `None` when the page reports no
language (JS `null`):
```
var selected = el.langSelect.value;
if (selected !== 'auto') return selected;
if (pageLang) {
  var base = pageLang.split('-')[0].toLowerCase();
  if (base === 'ja' || base === 'en' || base === 'es') return base;
}
return 'en';
``` -/
def getOutputLanguage (selected : String) (pageLang : Option String) : String :=
  if selected ≠ "auto" then selected
  else
    match pageLang with
    | some pl =>
      if pl ≠ "" then
        let base := jsToLower ((jsSplit '-' pl).headD "")
        if base = "ja" ∨ base = "en" ∨ base = "es" then base else "en"
      else "en"
    | none => "en"

/-- The base subtag of a language tag: the portion before any region suffix,
lowercased (used to state the specification of `getOutputLanguage`). -/
def baseSubtag (pl : String) : String :=
  jsToLower ((jsSplit '-' pl).headD "")

/-! ## English heuristic (sidepanel.js lines 987-997) -/

/-- Embeds `looksLikeEnglish(text)`:
```
if (!text) return true;
var sample = text.substring(0, 500);
var nonAscii = 0;
for (...) if (sample.charCodeAt(i) > 127) nonAscii++;
return (nonAscii / sample.length) < 0.15;
```
The JS floating-point comparison is embedded as the exact rational
comparison: for every count `n ≤ L ≤ 500` the nearest-double rounding of
`n / L` and of the literal `0.15` orders identically to the exact rationals
(the gap between any such `n / L` and `3 / 20` is at least `1 / 10000`,
far above double rounding error), so the embedding is faithful. -/
def looksLikeEnglish (text : String) : Bool :=
  if text = "" then true
  else
    let sample := jsSubstring0 text 500
    let nonAscii := sample.data.countP (fun c => c.toNat > 127)
    decide ((nonAscii : ℚ) / (sample.length : ℚ) < 0.15)

/-! ## Streaming prompt invocation (sidepanel.js lines 947-981) -/

/-- Loop state of the `for await (var chunk of stream)` loop in `runPromptApi`:
the accumulated `fullText` and the `isCumulative` flag
(`null` before detection, then `true`/`false` for the whole stream). -/
structure PromptStreamState where
  fullText : String
  isCumulative : Option Bool
deriving DecidableEq

/-- One iteration of the chunk loop (lines 966-976):
```
if (isCumulative === null && fullText.length > 0) {
  isCumulative = chunk.startsWith(fullText);
}
if (isCumulative) { fullText = chunk; } else { fullText += chunk; }
``` -/
def promptChunkStep (st : PromptStreamState) (chunk : String) : PromptStreamState :=
  let isCum :=
    if st.isCumulative = none ∧ st.fullText.length > 0 then
      some (jsStartsWith chunk st.fullText)
    else st.isCumulative
  { fullText := if isCum = some true then chunk else st.fullText ++ chunk
    isCumulative := isCum }

/-- Final loop state of `runPromptApi` over a whole chunk stream. -/
def runPromptApiState (chunks : List String) : PromptStreamState :=
  chunks.foldl promptChunkStep ⟨"", none⟩

/-- The accumulated text `runPromptApi` returns (its `fullText`) for a stream
that delivers the given chunks and then ends. -/
def runPromptApiAccum (chunks : List String) : String :=
  (runPromptApiState chunks).fullText

/-- Modelled from the claim's words (claim C1 / spec section 4.1): the
cumulative-versus-delta decision is made by testing whether the second chunk
begins with the first chunk; in cumulative mode every subsequent chunk
replaces the accumulated text, in delta mode every chunk is appended. -/
def claimStreamText : List String → String
  | [] => ""
  | [c] => c
  | c1 :: c2 :: rest =>
    if jsStartsWith c2 c1 then rest.getLastD c2 else strConcat (c1 :: c2 :: rest)

/-! ## Session lifecycle events -/

/-- Session-lifecycle events emitted by a generation: creation and destruction
of a model session, numbered in creation order. -/
inductive SessEvent
  | create (id : Nat)
  | destroy (id : Nat)
deriving DecidableEq

/-- Count of one event in a trace. -/
def countEv (e : SessEvent) (tr : List SessEvent) : Nat :=
  tr.countP (fun x => x = e)

/-- The trace of `n` attempts starting at session id `idx`:
`[create idx, destroy idx, create (idx+1), destroy (idx+1), ...]`. -/
def pairTrace (idx : Nat) : Nat → List SessEvent
  | 0 => []
  | n + 1 => SessEvent.create idx :: SessEvent.destroy idx :: pairTrace (idx + 1) n

/-- The result of `runPromptApi` (sidepanel.js lines 947-981): the session is
created before the `try`, the chunk loop accumulates `fullText`, and the
`finally` destroys the session on every exit path, also when the stream
throws (`streamErr = some e`, in which case the error is rethrown). -/
structure PromptRun where
  result : Except JsError String
  trace : List SessEvent

/-- Embeds `runPromptApi`'s session and result behaviour for a stream that
delivers `chunks` and then either ends normally (`streamErr = none`) or
throws (`streamErr = some e`). -/
def runPromptApi (chunks : List String) (streamErr : Option JsError) : PromptRun :=
  { result :=
      match streamErr with
      | none => .ok (runPromptApiAccum chunks)
      | some e => .error e
    trace := [.create 0, .destroy 0] }

/-! ## One-shot summarizer with truncation retry (sidepanel.js lines 816-859) -/

/-- The provider's response to one `summarizer.summarize(attempt)` call. -/
inductive SummOutcome
  | ok (summary : String)
  | err (e : JsError)

/-- `config.TEXT_LIMITS.TRUNCATION_SUFFIX` (config.js). -/
def truncationSuffix : String := "\n\n[Text truncated for summarization]"

/-- Embeds the attempt ladder of `runSummarizer` (lines 817-824):
```
var attempts = [text];
if (text.length > 6000) attempts.push(text.substring(0, Math.floor(text.length / 2)) + SUFFIX);
if (text.length > 3000) attempts.push(text.substring(0, Math.floor(text.length / 4)) + SUFFIX);
``` -/
def summarizerAttempts (text : String) : List String :=
  [text]
    ++ (if text.length > 6000 then [jsSubstring0 text (text.length / 2) ++ truncationSuffix] else [])
    ++ (if text.length > 3000 then [jsSubstring0 text (text.length / 4) ++ truncationSuffix] else [])

/-- Result of `runSummarizer`: the value returned or error thrown, the last
text it wrote into the target element (`none` = element untouched by it),
and the session-lifecycle trace. -/
structure SummRun where
  result : Except JsError (Option String)
  display : Option String
  trace : List SessEvent

/-- The attempt loop of `runSummarizer` (lines 826-858).  Each iteration
creates a fresh session, `summarize`s, and destroys the session in a
`finally`; abort errors are rethrown; a "too large" error retries with the
next (smaller) attempt when one remains; any other error renders
`'Error: ' + err.message` and returns null. -/
def runSummarizerAttempts (provider : String → SummOutcome) :
    List String → Nat → List SessEvent → SummRun
  | [], _, tr => { result := .ok none, display := some "(No summary generated)", trace := tr }
  | a :: rest, idx, tr =>
    match provider a with
    | .ok s =>
      if s ≠ "" then
        { result := .ok (some s), display := some s
          trace := tr ++ [.create idx, .destroy idx] }
      else
        { result := .ok none, display := some "(No summary generated)"
          trace := tr ++ [.create idx, .destroy idx] }
    | .err e =>
      if isAbortedErr e then
        { result := .error e, display := none
          trace := tr ++ [.create idx, .destroy idx] }
      else if containsTooLarge e.message ∧ rest ≠ [] then
        runSummarizerAttempts provider rest (idx + 1) (tr ++ [.create idx, .destroy idx])
      else
        { result := .ok none, display := some ("Error: " ++ e.message)
          trace := tr ++ [.create idx, .destroy idx] }

/-- Embeds `runSummarizer(options, text, targetElement)`; the provider maps
each attempt text to the outcome of its `summarize` call. -/
def runSummarizer (provider : String → SummOutcome) (text : String) : SummRun :=
  runSummarizerAttempts provider (summarizerAttempts text) 0 []

/-! ## TL;DR handler (sidepanel.js lines 491-578) -/

/-- The observable outcome of `handleGenerateTldr` once it settles: the final
text content of the TL;DR slot, the tab-cache `tldr` field for the current
tab afterwards, and the per-slot running flag. -/
structure TldrOutcome where
  display : String
  cacheTldr : Option String
  isSummarizingTldr : Bool
deriving DecidableEq

/-- Embeds the `try`/`catch`/`finally` of `handleGenerateTldr` (lines 528-577)
around its `runSummarizer` call: on normal return the result is written to the
tab cache; on a thrown error the cache is untouched and the slot shows
`'Generation cancelled'` for abort-classified errors and `'Error: ' + ...`
otherwise; the `finally` clears the running flag on every path. -/
def handleGenerateTldrRun (provider : String → SummOutcome) (text : String)
    (prevCacheTldr : Option String) : TldrOutcome :=
  let r := runSummarizer provider text
  match r.result with
  | .ok v =>
    { display := r.display.getD ""
      cacheTldr := v
      isSummarizingTldr := false }
  | .error e =>
    if isAbortedErr e then
      { display := "Generation cancelled"
        cacheTldr := prevCacheTldr
        isSummarizingTldr := false }
    else
      { display := "Error: " ++ (if e.message = "" then "Failed to generate TL;DR" else e.message)
        cacheTldr := prevCacheTldr
        isSummarizingTldr := false }

/-! ## Quiz handler session lifecycle (sidepanel.js lines 1347-1388) -/

/-- Observable outcome of the session part of `handleGenerateQuiz`. -/
structure QuizOutcome where
  display : String
  trace : List SessEvent

/-- Embeds the `LanguageModel.create` / `session.prompt` /
`finally { session.destroy() }` structure of `handleGenerateQuiz`: when
creation fails no session exists; when it succeeds the `finally` destroys the
one session on both the success and the error path.  The rendering of a
successful result (`renderQuiz`) is abstracted to the raw text since claim C7
concerns only the session lifecycle. -/
def handleGenerateQuizRun (createRes : Except JsError Unit)
    (promptRes : Except JsError String) : QuizOutcome :=
  match createRes with
  | .error e =>
    { display :=
        if isAbortedErrLoose e then "Generation cancelled"
        else "Quiz generation failed: " ++ e.message
      trace := [] }
  | .ok _ =>
    match promptRes with
    | .ok result => { display := result, trace := [.create 0, .destroy 0] }
    | .error e =>
      { display :=
          if isAbortedErrLoose e then "Generation cancelled"
          else "Quiz generation failed: " ++ e.message
        trace := [.create 0, .destroy 0] }

/-! ## Key-points parsing and item-by-item translation (sidepanel.js 1107-1135) -/

/-- Case-insensitive match of the regex alternation `(HIGH|MEDIUM|LOW)` at the
head of a character list, returning the canonical upper-case tag word
(`match[1].toUpperCase()`) and the remaining characters. -/
def importanceTagAt (cs : List Char) : Option (String × List Char) :=
  if (cs.take 4).map Char.toLower = "high".data then some ("HIGH", cs.drop 4)
  else if (cs.take 6).map Char.toLower = "medium".data then some ("MEDIUM", cs.drop 6)
  else if (cs.take 3).map Char.toLower = "low".data then some ("LOW", cs.drop 3)
  else none

/-- Skip one optional leading `[` (the regex's `\[?`). -/
def bracketOpenSkip (cs : List Char) : List Char :=
  if cs.head? = some '[' then cs.tail else cs

/-- Skip one optional leading `]` (the regex's `\]?`). -/
def bracketCloseSkip (cs : List Char) : List Char :=
  if cs.head? = some ']' then cs.tail else cs

/-- Embeds one loop iteration of `translateKeyPointsPreservingFormat`
(lines 1110-1117):
```
var line = lines[i].trim();
if (!line) continue;
var match = line.match(/^[-*]\s*\[?(HIGH|MEDIUM|LOW)\]?\s*(.*)/i);
if (match) items.push({ tag: '[' + match[1].toUpperCase() + ']', text: match[2] });
```
Since none of `HIGH`/`MEDIUM`/`LOW` starts with `[`, the regex's optional
`\[?` never profits from backtracking, so greedy one-pass matching is
equivalent. -/
def parseKeyPointLine (rawLine : String) : Option (String × String) :=
  match (jsTrim rawLine).data with
  | [] => none
  | b :: rest =>
    if b = '-' ∨ b = '*' then
      match importanceTagAt (bracketOpenSkip (rest.dropWhile Char.isWhitespace)) with
      | some (tag, r2) =>
        some ("[" ++ tag ++ "]",
          String.mk ((bracketCloseSkip r2).dropWhile Char.isWhitespace))
      | none => none
    else none

/-- The ordered list of `{tag, text}` items `translateKeyPointsPreservingFormat`
extracts from a key-points block (lines 1108-1117). -/
def parseKeyPointItems (text : String) : List (String × String) :=
  (jsSplit '\n' text).filterMap parseKeyPointLine

/-- Embeds `translateKeyPointsPreservingFormat(translator, keyPointsText)`
(lines 1107-1135).  The translator is fallible (`translator.translate` may
reject); a rejection anywhere in the sequential promise chain rejects the
whole call.  With zero parsed items the whole block is translated as a
fallback; otherwise each item's body is translated individually and the line
is reassembled as `'- ' + tag + ' ' + (translated.trim() || originalBody)`. -/
def translateKeyPointsPreservingFormat (translator : String → Except JsError String)
    (keyPointsText : String) : Except JsError String :=
  if (parseKeyPointItems keyPointsText).isEmpty then translator keyPointsText
  else do
    let translated ← (parseKeyPointItems keyPointsText).mapM (fun item => do
      let t ← translator item.2
      pure ("- " ++ item.1 ++ " " ++ (if jsTrim t ≠ "" then jsTrim t else item.2)))
    pure (jsJoin '\n' translated)

/-! ## Translation fallbacks (sidepanel.js lines 1033-1093) -/

/-- A translator session: `translate` may reject. -/
def Translator : Type := String → Except JsError String

/-- Embeds `translateIfNeeded(text, targetLang)` (lines 1033-1064).
`pending` models the module-level `pendingTranslator` promise (`none` = JS
`null`; `some (.error e)` = awaiting it rejects, which the outer `catch`
swallows); `create` models on-demand `createTranslator(targetLang)`.  Every
failure path — empty input, target `'en'`, failed creation, a rejected
`translate` call, or an empty/whitespace translation — returns the input
text unchanged; no exception escapes. -/
def translateIfNeeded (pending : Option (Except JsError Translator))
    (create : Except JsError Translator) (text targetLang : String) : String :=
  if text = "" ∨ targetLang = "en" then text
  else
    match pending with
    | some (.error _) => text
    | some (.ok translator) =>
      match translator text with
      | .ok t => if jsTrim t ≠ "" then t else text
      | .error _ => text
    | none =>
      match create with
      | .error _ => text
      | .ok translator =>
        match translator text with
        | .ok t => if jsTrim t ≠ "" then t else text
        | .error _ => text

/-- Embeds `translateKeyPointsIfNeeded(keyPointsText, targetLang)`
(lines 1069-1093); same acquisition and recovery structure as
`translateIfNeeded` but delegating to `translateKeyPointsPreservingFormat`. -/
def translateKeyPointsIfNeeded (pending : Option (Except JsError Translator))
    (create : Except JsError Translator) (keyPointsText targetLang : String) : String :=
  if keyPointsText = "" ∨ targetLang = "en" then keyPointsText
  else
    match pending with
    | some (.error _) => keyPointsText
    | some (.ok translator) =>
      match translateKeyPointsPreservingFormat translator keyPointsText with
      | .ok t => if jsTrim t ≠ "" then t else keyPointsText
      | .error _ => keyPointsText
    | none =>
      match create with
      | .error _ => keyPointsText
      | .ok translator =>
        match translateKeyPointsPreservingFormat translator keyPointsText with
        | .ok t => if jsTrim t ≠ "" then t else keyPointsText
        | .error _ => keyPointsText

/-- A body string that is safe to re-parse after reassembly: nonempty, free of
line breaks, and with no whitespace at either end (used as the wellformedness
hypothesis on translated item bodies in claim C5). -/
def cleanBody (b : String) : Bool :=
  b ≠ "" && b.data.all (fun c => ¬ c = '\n') &&
    !(b.data.head?.elim false Char.isWhitespace) &&
    !(b.data.getLast?.elim false Char.isWhitespace)

/-! ## Tab-scoped cache and tab switching (sidepanel.js 330-474, 2047-2090) -/

/-- The extracted page data the panel keeps per tab (only the fields the cache
logic consults). -/
structure PageData where
  text : String
  lang : Option String
deriving DecidableEq

/-- One `tabCache[tabId]` entry (line 14 and lines 331-338, 414-425). -/
structure CacheEntry where
  pageData : Option PageData
  tldr : Option String
  keyPoints : Option String
  quizHtml : Option String
  dialogueHtml : Option String
  chatHtml : Option String
deriving DecidableEq

/-- `tabCache` is a plain JS object keyed by tab id; modelled as an
association list. -/
def TabCache : Type := List (Nat × CacheEntry)

/-- Embeds reading `tabCache[tabId]`. -/
def cacheLookup (cache : TabCache) (tabId : Nat) : Option CacheEntry :=
  (cache.find? (fun p => p.1 = tabId)).map (fun p => p.2)

/-- Embeds the assignment `tabCache[tabId] = entry`. -/
def cacheSet (cache : TabCache) (tabId : Nat) (entry : CacheEntry) : TabCache :=
  (tabId, entry) :: cache.filter (fun p => ¬ p.1 = tabId)

/-- Embeds `delete tabCache[tabId]`. -/
def cacheDelete (cache : TabCache) (tabId : Nat) : TabCache :=
  cache.filter (fun p => ¬ p.1 = tabId)

/-- JS truthiness on an optional string content slot: `some ""` and `none`
are both falsy. -/
def jsTruthyStr (o : Option String) : Option String :=
  match o with
  | some t => if t = "" then none else some t
  | none => none

/-- The rendered content of the panel's slots (the raw text republished into
each content element; `none` = the element is cleared/empty). -/
structure DisplayState where
  tldrContent : Option String
  keyPointsContent : Option String
  quizContent : Option String
  dialogueContent : Option String
  chatHistory : Option String
  pageInfoShown : Bool
deriving DecidableEq

/-- The empty display (`showFreshState`, lines 396-404: results cleared,
page info hidden, chat/quiz/dialogue cleared). -/
def freshDisplay : DisplayState :=
  { tldrContent := none, keyPointsContent := none, quizContent := none
    dialogueContent := none, chatHistory := none, pageInfoShown := false }

/-- Externally requested actions recorded by the panel model: text extraction
and artifact generation.  Tab switching and cache restoration never append a
`generate` action — generation is only triggered by the user's generate
buttons. -/
inductive PanelAction
  | extractText
  | generate (kind : String)
deriving DecidableEq

/-- The panel's mutable module-level state touched by the cache logic. -/
structure PanelState where
  cache : TabCache
  currentTabId : Option Nat
  display : DisplayState
  extractedPageData : Option PageData
  isSummarizing : Bool
  trace : List PanelAction

/-- Embeds `restoreFromCache(tabId)` (lines 340-394): `none` when there is no
entry (the JS function returns `false`); otherwise the page data and every
stored artifact's raw text are republished into the render layer (empty /
falsy fields clear their slot). -/
def restoreFromCacheFun (st : PanelState) (tabId : Nat) : Option PanelState :=
  match cacheLookup st.cache tabId with
  | none => none
  | some cached =>
    some { st with
      extractedPageData := cached.pageData
      display :=
        { tldrContent := jsTruthyStr cached.tldr
          keyPointsContent := jsTruthyStr cached.keyPoints
          quizContent := jsTruthyStr cached.quizHtml
          dialogueContent := jsTruthyStr cached.dialogueHtml
          chatHistory := jsTruthyStr cached.chatHtml
          pageInfoShown := true } }

/-- Embeds `showFreshState()` (lines 396-404). -/
def showFreshStateFun (st : PanelState) : PanelState :=
  { st with extractedPageData := none, display := freshDisplay }

/-- Embeds `saveCurrentTabQuizChat(tabId)` (lines 407-426): before switching
away, persist quiz/dialogue/chat content rendered for the departing tab,
creating a minimal entry (seeded from the current page data and the rendered
summary raw text) when the tab has none. -/
def saveCurrentTabQuizChatFun (st : PanelState) (tabId : Option Nat) : PanelState :=
  match tabId with
  | none => st
  | some tid =>
    if ¬ st.display.quizContent.isSome ∧ ¬ st.display.dialogueContent.isSome
        ∧ ¬ st.display.chatHistory.isSome then st
    else
      { st with
        cache := cacheSet st.cache tid
          { (match cacheLookup st.cache tid with
             | some e => e
             | none =>
               { pageData := st.extractedPageData
                 tldr := st.display.tldrContent
                 keyPoints := st.display.keyPointsContent
                 quizHtml := none, dialogueHtml := none, chatHtml := none }) with
            quizHtml :=
              if st.display.quizContent.isSome then st.display.quizContent else none
            dialogueHtml :=
              if st.display.dialogueContent.isSome then st.display.dialogueContent
              else none
            chatHtml :=
              if st.display.chatHistory.isSome then st.display.chatHistory else none } }

/-- Publication of an extraction outcome after a cache-miss tab switch
(lines 465-471): the JS assigns `extractedPageData` whenever the promise
resolves and calls `showPageInfo` only for nonempty text; a rejected
extraction (`none`) changes nothing. -/
def switchPublish : Option PageData → PanelState → PanelState
  | some pd, stF =>
    { stF with
      extractedPageData := some pd
      display := { stF.display with pageInfoShown := pd.text ≠ "" } }
  | none, stF => stF

/-- The extraction step at the end of a cache-miss tab switch (lines 463-472):
record the extraction request and publish its outcome. -/
def switchExtract (extract : Nat → Option PageData) (stF : PanelState)
    (tabId : Nat) : PanelState :=
  switchPublish (extract tabId) { stF with trace := stF.trace ++ [.extractText] }

/-- The part of `switchToTab` after the current-tab pointer moved to the new
tab (lines 453-473): bail out during an active summarization, show fresh
state for an inaccessible tab, republish from the cache on a hit, and show
fresh state plus extraction on a miss. -/
def switchToTabBody (acc : Nat → Bool) (extract : Nat → Option PageData)
    (stC : PanelState) (tabId : Nat) : PanelState :=
  if stC.isSummarizing then stC
  else if ¬ acc tabId then showFreshStateFun stC
  else
    match restoreFromCacheFun stC tabId with
    | some st' => st'
    | none => switchExtract extract (showFreshStateFun stC) tabId

/-- Embeds `switchToTab(tabId)` (lines 444-474).  `acc` is the accessibility
oracle (`updateTabAccessibility`); `extract` the extraction service (`none`
models a rejected extraction).  On a cache hit the cached artifacts are
republished with no extraction and no generation; on a miss the panel shows
fresh state and requests extraction. -/
def switchToTabFun (acc : Nat → Bool) (extract : Nat → Option PageData)
    (st : PanelState) (tabId : Nat) : PanelState :=
  if st.currentTabId = some tabId then st
  else
    switchToTabBody acc extract
      { saveCurrentTabQuizChatFun st st.currentTabId with currentTabId := some tabId }
      tabId

/-- Publication of an extraction outcome after a navigation (lines 2075-2079):
unlike the tab-switch path, the data is stored and shown only when extraction
resolves with nonempty text. -/
def navPublish : Option PageData → PanelState → PanelState
  | some pd, stF =>
    if pd.text ≠ "" then
      { stF with
        extractedPageData := some pd
        display := { stF.display with pageInfoShown := true } }
    else stF
  | none, stF => stF

/-- The extraction step of the navigation listener (lines 2074-2082). -/
def navExtract (extract : Nat → Option PageData) (stF : PanelState)
    (tabId : Nat) : PanelState :=
  navPublish (extract tabId) { stF with trace := stF.trace ++ [.extractText] }

/-- Embeds the `chrome.tabs.onUpdated` listener (lines 2058-2085): a URL
change deletes the navigated tab's cache entry; when the navigated tab is the
current one the panel additionally shows fresh state and, for an accessible
new URL, re-extracts. -/
def onTabNavigatedFun (extract : Nat → Option PageData) (st : PanelState)
    (tabId : Nat) (newUrlAccessible : Bool) : PanelState :=
  if st.currentTabId = some tabId then
    if ¬ newUrlAccessible then
      showFreshStateFun { st with cache := cacheDelete st.cache tabId }
    else
      navExtract extract
        (showFreshStateFun { st with cache := cacheDelete st.cache tabId }) tabId
  else { st with cache := cacheDelete st.cache tabId }

/-- Embeds the `chrome.tabs.onRemoved` listener (lines 2088-2090). -/
def onTabRemovedFun (st : PanelState) (tabId : Nat) : PanelState :=
  { st with cache := cacheDelete st.cache tabId }

/-- Embeds the cache update of `handleGenerateTldr` after a successful
generation (lines 545-559) together with the rendering of the result:
the entry for the current tab is created if absent and its `tldr` field set;
the TL;DR slot shows the generated text. -/
def saveTldrToCacheFun (st : PanelState) (tldrText : String) : PanelState :=
  match st.currentTabId with
  | none => st
  | some tid =>
    { st with
      cache := cacheSet st.cache tid
        { (match cacheLookup st.cache tid with
           | some e => e
           | none =>
             { pageData := st.extractedPageData, tldr := none, keyPoints := none
               quizHtml := none, dialogueHtml := none, chatHtml := none }) with
          tldr := some tldrText }
      display := { st.display with tldrContent := some tldrText } }

/-! ## Basic string helpers -/

theorem str_mk_data (s : String) : String.mk s.data = s := rfl

theorem str_ne_empty_iff (s : String) : s ≠ "" ↔ s.data ≠ [] := by
  constructor
  · intro h hd
    exact h (String.ext (by rw [hd]))
  · intro h hd
    exact h (by rw [hd])

theorem str_empty_append (s : String) : "" ++ s = s := by
  cases s
  rfl

theorem str_append_empty (s : String) : s ++ "" = s :=
  String.ext (by simp [String.data_append])

theorem dropWhile_eq_self_of_head (p : Char → Bool) (l : List Char)
    (h : l.head?.elim false p = false) : l.dropWhile p = l := by
  cases l with
  | nil => rfl
  | cons c cs =>
    simp only [List.head?, Option.elim] at h
    simp [List.dropWhile_cons, h]

theorem jsTrim_eq_self (s : String)
    (h1 : s.data.head?.elim false Char.isWhitespace = false)
    (h2 : s.data.getLast?.elim false Char.isWhitespace = false) : jsTrim s = s := by
  unfold jsTrim
  rw [dropWhile_eq_self_of_head _ _ h1]
  rw [dropWhile_eq_self_of_head _ _ (by rw [List.head?_reverse]; exact h2)]
  rw [List.reverse_reverse]

/-! ## C6: output-language resolution -/

/-- C6: when the user selection is not `auto`, `getOutputLanguage` returns the
selection verbatim; when it is `auto`, it returns the base subtag of the page
language (the portion before any region suffix, lowercased) when that subtag
is in the supported set `{ja, en, es}`, and `en` otherwise, including when
the page language is absent. -/
theorem getOutputLanguage_spec (selected : String) (pageLang : Option String) :
    (selected ≠ "auto" → getOutputLanguage selected pageLang = selected)
    ∧ (selected = "auto" →
        getOutputLanguage selected pageLang =
          match pageLang with
          | some pl =>
            if baseSubtag pl = "ja" ∨ baseSubtag pl = "en" ∨ baseSubtag pl = "es" then
              baseSubtag pl
            else "en"
          | none => "en") := by
  constructor
  · intro h
    simp [getOutputLanguage, h]
  · intro h
    subst h
    cases pageLang with
    | none => simp [getOutputLanguage]
    | some pl =>
      by_cases hpl : pl = ""
      · subst hpl
        simp only [getOutputLanguage]
        norm_num
        decide
      · simp [getOutputLanguage, baseSubtag, hpl]

/-- Witness for C6 at concrete inputs: an explicit selection is returned
verbatim; `auto` resolves `en-US` to `en`. -/
theorem getOutputLanguage_spec_witness :
    getOutputLanguage "ja" (some "en-US") = "ja"
    ∧ getOutputLanguage "auto" (some "en-US") = "en"
    ∧ getOutputLanguage "auto" (some "fr-FR") = "en"
    ∧ getOutputLanguage "auto" none = "en" := by
  refine ⟨(getOutputLanguage_spec "ja" (some "en-US")).1 (by decide), ?_, ?_, ?_⟩
  · rw [(getOutputLanguage_spec "auto" (some "en-US")).2 rfl]
    decide
  · rw [(getOutputLanguage_spec "auto" (some "fr-FR")).2 rfl]
    decide
  · rw [(getOutputLanguage_spec "auto" none).2 rfl]

/-! ## C8: looksLikeEnglish -/

/-- C8: `looksLikeEnglish` samples the leading 500 characters, computes the
fraction whose code point exceeds 127, and returns true iff that fraction is
below 0.15; hence true on every pure-ASCII input, and false whenever the
sample is more than 15 percent non-ASCII. -/
theorem looksLikeEnglish_spec (text : String) (h : text ≠ "") :
    (looksLikeEnglish text = true ↔
      (((jsSubstring0 text 500).data.countP (fun c => c.toNat > 127) : ℚ) /
          ((jsSubstring0 text 500).length : ℚ) < 0.15))
    ∧ ((∀ c ∈ text.data, c.toNat ≤ 127) → looksLikeEnglish text = true)
    ∧ (20 * ((jsSubstring0 text 500).data.countP (fun c => c.toNat > 127)) >
          3 * (jsSubstring0 text 500).length → looksLikeEnglish text = false) := by
  have hbody : looksLikeEnglish text =
      decide (((jsSubstring0 text 500).data.countP (fun c => c.toNat > 127) : ℚ) /
        ((jsSubstring0 text 500).length : ℚ) < 0.15) := by
    simp [looksLikeEnglish, h]
  refine ⟨by rw [hbody]; exact decide_eq_true_iff, ?_, ?_⟩
  · intro hascii
    rw [hbody]
    have hcount : (jsSubstring0 text 500).data.countP (fun c => c.toNat > 127) = 0 := by
      rw [List.countP_eq_zero]
      intro c hc
      have hmem : c ∈ text.data := List.take_subset 500 text.data (by
        simpa [jsSubstring0] using hc)
      simpa using Nat.not_lt.mpr (hascii c hmem)
    rw [hcount]
    norm_num
  · intro hgt
    rw [hbody]
    simp only [decide_eq_false_iff_not, not_lt]
    set n := (jsSubstring0 text 500).data.countP (fun c => c.toNat > 127) with hn
    set L := (jsSubstring0 text 500).length with hL
    have hLpos : 0 < L := by
      rcases Nat.eq_zero_or_pos L with h0 | hpos
      · exfalso
        have hnle : n ≤ L := by
          rw [hn, hL, jsSubstring0, String.length_mk]
          exact List.countP_le_length _
        omega
      · exact hpos
    have h015 : (0.15 : ℚ) = 3 / 20 := by norm_num
    rw [h015, div_le_div_iff₀ (by norm_num : (0 : ℚ) < 20) (by exact_mod_cast hLpos)]
    have h3L : 3 * L ≤ n * 20 := by omega
    exact_mod_cast h3L

/-- Witness for C8: a pure-ASCII string reads as English; a fully non-ASCII
string does not. -/
theorem looksLikeEnglish_spec_witness :
    looksLikeEnglish "hello world" = true ∧ looksLikeEnglish "こんにちは" = false := by
  constructor
  · exact (looksLikeEnglish_spec "hello world" (by decide)).2.1 (by decide)
  · exact (looksLikeEnglish_spec "こんにちは" (by decide)).2.2 (by decide)

/-! ## C9: translation fallbacks never lose the original text -/

/-- C9: `translateIfNeeded` and `translateKeyPointsIfNeeded` are total (the
embeddings return a plain string, mirroring the source's catch-all recovery)
and return the untranslated input unchanged in every failure mode: target
language `en`, empty input, a rejected pending-translator promise, failed
translator creation, a rejected translate call, and an empty or
whitespace-only translation. -/
theorem translate_fallback_spec :
    (∀ p c text, translateIfNeeded p c text "en" = text)
    ∧ (∀ p c lang, translateIfNeeded p c "" lang = "")
    ∧ (∀ c e text lang, translateIfNeeded (some (.error e)) c text lang = text)
    ∧ (∀ e text lang, translateIfNeeded none (.error e) text lang = text)
    ∧ (∀ (tr : Translator) text lang e, tr text = .error e →
        translateIfNeeded none (.ok tr) text lang = text)
    ∧ (∀ (tr : Translator) text lang t, tr text = .ok t → jsTrim t = "" →
        translateIfNeeded none (.ok tr) text lang = text)
    ∧ (∀ p c text, translateKeyPointsIfNeeded p c text "en" = text)
    ∧ (∀ p c lang, translateKeyPointsIfNeeded p c "" lang = "")
    ∧ (∀ c e text lang, translateKeyPointsIfNeeded (some (.error e)) c text lang = text)
    ∧ (∀ e text lang, translateKeyPointsIfNeeded none (.error e) text lang = text)
    ∧ (∀ (tr : Translator) text lang e,
        translateKeyPointsPreservingFormat tr text = .error e →
        translateKeyPointsIfNeeded none (.ok tr) text lang = text)
    ∧ (∀ (tr : Translator) text lang t,
        translateKeyPointsPreservingFormat tr text = .ok t → jsTrim t = "" →
        translateKeyPointsIfNeeded none (.ok tr) text lang = text) := by
  refine ⟨?_, ?_, ?_, ?_, ?_, ?_, ?_, ?_, ?_, ?_, ?_, ?_⟩
  · intro p c text
    simp [translateIfNeeded]
  · intro p c lang
    simp [translateIfNeeded]
  · intro c e text lang
    by_cases h : text = "" ∨ lang = "en" <;> simp [translateIfNeeded, h]
  · intro e text lang
    by_cases h : text = "" ∨ lang = "en" <;> simp [translateIfNeeded, h]
  · intro tr text lang e htr
    by_cases h : text = "" ∨ lang = "en" <;> simp [translateIfNeeded, h, htr]
  · intro tr text lang t htr ht
    by_cases h : text = "" ∨ lang = "en" <;> simp [translateIfNeeded, h, htr, ht]
  · intro p c text
    simp [translateKeyPointsIfNeeded]
  · intro p c lang
    simp [translateKeyPointsIfNeeded]
  · intro c e text lang
    by_cases h : text = "" ∨ lang = "en" <;> simp [translateKeyPointsIfNeeded, h]
  · intro e text lang
    by_cases h : text = "" ∨ lang = "en" <;> simp [translateKeyPointsIfNeeded, h]
  · intro tr text lang e htr
    by_cases h : text = "" ∨ lang = "en" <;> simp [translateKeyPointsIfNeeded, h, htr]
  · intro tr text lang t htr ht
    by_cases h : text = "" ∨ lang = "en" <;> simp [translateKeyPointsIfNeeded, h, htr, ht]

/-- Witness for C9: a translator whose translate call always rejects leaves a
concrete input unchanged, as does a failed creation. -/
theorem translate_fallback_spec_witness :
    translateIfNeeded none
        (.ok (fun _ => .error ⟨"NetworkError", "failed"⟩)) "Hello" "ja" = "Hello"
    ∧ translateKeyPointsIfNeeded none (.error ⟨"NotAllowedError", "gesture"⟩)
        "- [HIGH] Point A" "ja" = "- [HIGH] Point A" := by
  constructor
  · exact translate_fallback_spec.2.2.2.2.1 (fun _ => .error ⟨"NetworkError", "failed"⟩)
      "Hello" "ja" ⟨"NetworkError", "failed"⟩ rfl
  · exact translate_fallback_spec.2.2.2.2.2.2.2.2.2.1 ⟨"NotAllowedError", "gesture"⟩
      "- [HIGH] Point A" "ja"

/-! ## C1: cumulative/delta stream detection -/

theorem promptChunkStep_fixed (b : Bool) (t : String) (c : String) :
    promptChunkStep ⟨t, some b⟩ c = ⟨if b then c else t ++ c, some b⟩ := by
  simp [promptChunkStep]

theorem promptFold_fixed (b : Bool) (rest : List String) :
    ∀ t : String,
      rest.foldl promptChunkStep ⟨t, some b⟩ =
        ⟨if b then rest.getLastD t else t ++ strConcat rest, some b⟩ := by
  induction rest with
  | nil =>
    intro t
    cases b <;> simp [strConcat, str_append_empty]
  | cons c rest ih =>
    intro t
    rw [List.foldl_cons, promptChunkStep_fixed, ih]
    cases b with
    | false => simp [strConcat, String.append_assoc]
    | true =>
      rw [List.getLastD_cons]
      simp

/-- C1 (amended): the cumulative-versus-delta decision of `runPromptApi` is
deferred while the accumulated text is empty; for every stream whose first
chunk is nonempty it is made exactly at the second chunk — by testing whether
the second chunk begins with the first — and kept for the whole stream: in
cumulative mode every subsequent chunk replaces the accumulated text, in
delta mode every chunk is appended. -/
theorem runPromptApi_stream_detection (c1 c2 : String) (rest : List String)
    (h : c1 ≠ "") :
    (runPromptApiState (c1 :: c2 :: rest)).isCumulative = some (jsStartsWith c2 c1)
    ∧ runPromptApiAccum (c1 :: c2 :: rest) =
        (if jsStartsWith c2 c1 then rest.getLastD c2 else (c1 ++ c2) ++ strConcat rest) := by
  have hlen : c1.length > 0 := by
    rw [String.length]
    exact List.length_pos.mpr ((str_ne_empty_iff c1).mp h)
  have hstep1 : promptChunkStep ⟨"", none⟩ c1 = ⟨c1, none⟩ := by
    simp [promptChunkStep, str_empty_append]
  have hstep2 : promptChunkStep ⟨c1, none⟩ c2 =
      ⟨if jsStartsWith c2 c1 then c2 else c1 ++ c2, some (jsStartsWith c2 c1)⟩ := by
    simp only [promptChunkStep, hlen]
    cases hj : jsStartsWith c2 c1 <;> simp [hj]
  have hfold : runPromptApiState (c1 :: c2 :: rest) =
      ⟨if jsStartsWith c2 c1
          then rest.getLastD (if jsStartsWith c2 c1 then c2 else c1 ++ c2)
          else (if jsStartsWith c2 c1 then c2 else c1 ++ c2) ++ strConcat rest,
        some (jsStartsWith c2 c1)⟩ := by
    rw [runPromptApiState, List.foldl_cons, List.foldl_cons, hstep1, hstep2,
      promptFold_fixed]
  constructor
  · rw [hfold]
  · rw [runPromptApiAccum, hfold]
    cases hj : jsStartsWith c2 c1 <;> simp [hj]

/-- C1 counterexample: the claim's detection rule — decide at the second
chunk by testing whether it begins with the first chunk — disagrees with the
code when the first chunk is empty.  On chunks `["", "ab", "c"]` the second
chunk begins with the (empty) first chunk, so the claim's rule selects
cumulative mode and yields `"c"`, while `runPromptApi` defers detection while
the accumulated text is empty, detects delta mode at the third chunk, and
yields `"abc"`. -/
theorem runPromptApi_claim_counterexample :
    jsStartsWith "ab" "" = true
    ∧ claimStreamText ["", "ab", "c"] = "c"
    ∧ runPromptApiAccum ["", "ab", "c"] = "abc"
    ∧ runPromptApiAccum ["", "ab", "c"] ≠ claimStreamText ["", "ab", "c"] := by
  decide

/-- Witness for C1 on the two streams named by the claim: a cumulative stream
and a delta stream both end with `"Hello world"`. -/
theorem runPromptApi_stream_detection_witness :
    runPromptApiAccum ["Hello", "Hello world"] = "Hello world"
    ∧ runPromptApiAccum ["Hello", " world"] = "Hello world" := by
  constructor
  · rw [(runPromptApi_stream_detection "Hello" "Hello world" [] (by decide)).2]
    decide
  · rw [(runPromptApi_stream_detection "Hello" " world" [] (by decide)).2]
    decide

/-! ## Behaviour of the summarizer attempt loop -/

theorem runSummAtt_ok {provider : String → SummOutcome} {a : String} {rest : List String}
    {idx : Nat} {tr : List SessEvent} {s : String}
    (hp : provider a = .ok s) (hs : s ≠ "") :
    runSummarizerAttempts provider (a :: rest) idx tr =
      { result := .ok (some s), display := some s
        trace := tr ++ [.create idx, .destroy idx] } := by
  simp [runSummarizerAttempts, hp, hs]

theorem runSummAtt_abort {provider : String → SummOutcome} {a : String} {rest : List String}
    {idx : Nat} {tr : List SessEvent} {e : JsError}
    (hp : provider a = .err e) (ha : isAbortedErr e = true) :
    runSummarizerAttempts provider (a :: rest) idx tr =
      { result := .error e, display := none
        trace := tr ++ [.create idx, .destroy idx] } := by
  simp [runSummarizerAttempts, hp, ha]

theorem runSummAtt_err_stop {provider : String → SummOutcome} {a : String} {rest : List String}
    {idx : Nat} {tr : List SessEvent} {e : JsError}
    (hp : provider a = .err e) (ha : isAbortedErr e = false)
    (hstop : containsTooLarge e.message = false ∨ rest = []) :
    runSummarizerAttempts provider (a :: rest) idx tr =
      { result := .ok none, display := some ("Error: " ++ e.message)
        trace := tr ++ [.create idx, .destroy idx] } := by
  rcases hstop with h | h
  · simp [runSummarizerAttempts, hp, ha, h]
  · subst h
    simp [runSummarizerAttempts, hp, ha]

theorem runSummAtt_retry {provider : String → SummOutcome} {a : String} {rest : List String}
    {idx : Nat} {tr : List SessEvent} {e : JsError}
    (hp : provider a = .err e) (ha : isAbortedErr e = false)
    (ht : containsTooLarge e.message = true) (hrest : rest ≠ []) :
    runSummarizerAttempts provider (a :: rest) idx tr =
      runSummarizerAttempts provider rest (idx + 1) (tr ++ [.create idx, .destroy idx]) := by
  simp [runSummarizerAttempts, hp, ha, ht, hrest]

theorem summarizerAttempts_head (text : String) :
    ∃ rest, summarizerAttempts text = text :: rest :=
  ⟨_, rfl⟩

theorem summarizerAttempts_big {text : String} (h : text.length > 6000) :
    summarizerAttempts text =
      [text, jsSubstring0 text (text.length / 2) ++ truncationSuffix,
        jsSubstring0 text (text.length / 4) ++ truncationSuffix] := by
  have h3 : text.length > 3000 := by omega
  simp [summarizerAttempts, h, h3]

theorem summarizerAttempts_small {text : String} (h : text.length ≤ 3000) :
    summarizerAttempts text = [text] := by
  have h6 : ¬ text.length > 6000 := by omega
  have h3 : ¬ text.length > 3000 := by omega
  simp [summarizerAttempts, h6, h3]

theorem summarizerAttempts_mid {text : String} (h1 : 3000 < text.length)
    (h2 : text.length ≤ 6000) :
    summarizerAttempts text = [text, jsSubstring0 text (text.length / 4) ++ truncationSuffix] := by
  have h6 : ¬ text.length > 6000 := by omega
  simp [summarizerAttempts, h6, h1]

/-! ## C3: truncation retry only on input-too-large -/

/-- C3: when the provider reports "too large" on the full text and on the
half-length text but succeeds on the quarter-length text, `runSummarizer`
returns the quarter-length result after exactly three session creations, each
destroyed; and any non-abort error that is not an input-too-large condition
ends the attempt sequence immediately with a single (destroyed) session and
no retry. -/
theorem runSummarizer_retry_too_large
    (provider : String → SummOutcome) (text : String) (e0 e1 : JsError) (s : String)
    (hlen : text.length > 6000)
    (h0 : provider text = .err e0)
    (h0a : isAbortedErr e0 = false) (h0t : containsTooLarge e0.message = true)
    (h1 : provider (jsSubstring0 text (text.length / 2) ++ truncationSuffix) = .err e1)
    (h1a : isAbortedErr e1 = false) (h1t : containsTooLarge e1.message = true)
    (h2 : provider (jsSubstring0 text (text.length / 4) ++ truncationSuffix) = .ok s)
    (hs : s ≠ "") :
    (runSummarizer provider text).result = .ok (some s)
    ∧ (runSummarizer provider text).display = some s
    ∧ (runSummarizer provider text).trace =
        [.create 0, .destroy 0, .create 1, .destroy 1, .create 2, .destroy 2]
    ∧ (∀ (provider' : String → SummOutcome) (text' : String) (e' : JsError),
        provider' text' = .err e' → isAbortedErr e' = false →
        containsTooLarge e'.message = false →
        (runSummarizer provider' text').result = .ok none
        ∧ (runSummarizer provider' text').display = some ("Error: " ++ e'.message)
        ∧ (runSummarizer provider' text').trace = [.create 0, .destroy 0]) := by
  have hrun : runSummarizer provider text =
      { result := .ok (some s), display := some s
        trace := [.create 0, .destroy 0, .create 1, .destroy 1, .create 2, .destroy 2] } := by
    rw [runSummarizer, summarizerAttempts_big hlen]
    rw [runSummAtt_retry h0 h0a h0t (by simp)]
    rw [runSummAtt_retry h1 h1a h1t (by simp)]
    rw [runSummAtt_ok h2 hs]
    simp
  refine ⟨by rw [hrun], by rw [hrun], by rw [hrun], ?_⟩
  intro provider' text' e' hp' ha' ht'
  obtain ⟨rest', hrest'⟩ := summarizerAttempts_head text'
  have hrun' : runSummarizer provider' text' =
      { result := .ok none, display := some ("Error: " ++ e'.message)
        trace := [.create 0, .destroy 0] } := by
    rw [runSummarizer, hrest', runSummAtt_err_stop hp' ha' (Or.inl ht')]
    simp
  exact ⟨by rw [hrun'], by rw [hrun'], by rw [hrun']⟩

/-- Witness for C3: on a 6001-character input with a provider that reports
"too large" for any attempt longer than 2000 characters, the quarter-length
attempt succeeds after exactly three created-and-destroyed sessions. -/
theorem runSummarizer_retry_too_large_witness :
    (runSummarizer
        (fun t => if t.length > 2000 then
            SummOutcome.err ⟨"InvalidStateError", "The input is too large."⟩
          else SummOutcome.ok "S")
        (String.mk (List.replicate 6001 'a'))).result = .ok (some "S")
    ∧ (runSummarizer
        (fun t => if t.length > 2000 then
            SummOutcome.err ⟨"InvalidStateError", "The input is too large."⟩
          else SummOutcome.ok "S")
        (String.mk (List.replicate 6001 'a'))).trace =
        [.create 0, .destroy 0, .create 1, .destroy 1, .create 2, .destroy 2] := by
  have hlen : (String.mk (List.replicate 6001 'a')).length = 6001 := by
    rw [String.length_mk, List.length_replicate]
  have hsuf : truncationSuffix.length ≤ 500 := by decide
  have hhalf : (jsSubstring0 (String.mk (List.replicate 6001 'a'))
      ((String.mk (List.replicate 6001 'a')).length / 2) ++ truncationSuffix).length =
      3000 + truncationSuffix.length := by
    rw [String.length_append, hlen, jsSubstring0, String.length_mk]
    norm_num [List.take_replicate, List.length_replicate]
  have hquarter : (jsSubstring0 (String.mk (List.replicate 6001 'a'))
      ((String.mk (List.replicate 6001 'a')).length / 4) ++ truncationSuffix).length =
      1500 + truncationSuffix.length := by
    rw [String.length_append, hlen, jsSubstring0, String.length_mk]
    norm_num [List.take_replicate, List.length_replicate]
  have h0 : (fun (t : String) => if t.length > 2000 then
      SummOutcome.err ⟨"InvalidStateError", "The input is too large."⟩
    else SummOutcome.ok "S") (String.mk (List.replicate 6001 'a')) =
      .err ⟨"InvalidStateError", "The input is too large."⟩ := by
    simp only [hlen]
    norm_num
  have h1 : (fun (t : String) => if t.length > 2000 then
      SummOutcome.err ⟨"InvalidStateError", "The input is too large."⟩
    else SummOutcome.ok "S") (jsSubstring0 (String.mk (List.replicate 6001 'a'))
      ((String.mk (List.replicate 6001 'a')).length / 2) ++ truncationSuffix) =
      .err ⟨"InvalidStateError", "The input is too large."⟩ := by
    simp only [hhalf]
    have : 2000 < 3000 + truncationSuffix.length := by omega
    simp [this]
  have h2 : (fun (t : String) => if t.length > 2000 then
      SummOutcome.err ⟨"InvalidStateError", "The input is too large."⟩
    else SummOutcome.ok "S") (jsSubstring0 (String.mk (List.replicate 6001 'a'))
      ((String.mk (List.replicate 6001 'a')).length / 4) ++ truncationSuffix) =
      .ok "S" := by
    simp only [hquarter]
    have : ¬ (1500 + truncationSuffix.length > 2000) := by omega
    simp [this]
  have happ := runSummarizer_retry_too_large
    (fun t => if t.length > 2000 then
        SummOutcome.err ⟨"InvalidStateError", "The input is too large."⟩
      else SummOutcome.ok "S")
    (String.mk (List.replicate 6001 'a'))
    ⟨"InvalidStateError", "The input is too large."⟩
    ⟨"InvalidStateError", "The input is too large."⟩ "S"
    (by rw [hlen]; norm_num) h0 (by decide) (by decide) h1 (by decide) (by decide) h2
    (by decide)
  exact ⟨happ.1, happ.2.2.1⟩

/-! ## C10: the retry ladder is length-gated -/

/-- C10: the half-length attempt exists only for inputs longer than 6000
characters and the quarter-length attempt only for inputs longer than 3000;
for an input of length at most 3000 any non-abort error (in particular an
input-too-large one) is surfaced immediately with no truncation retry, and
for lengths in (3000, 6000] only the quarter-length retry is attempted. -/
theorem runSummarizer_length_gate
    (text : String) (provider : String → SummOutcome) (e : JsError) (s : String) :
    (text.length ≤ 3000 →
      summarizerAttempts text = [text]
      ∧ (provider text = .err e → isAbortedErr e = false →
          (runSummarizer provider text).result = .ok none
          ∧ (runSummarizer provider text).display = some ("Error: " ++ e.message)
          ∧ (runSummarizer provider text).trace = [.create 0, .destroy 0]))
    ∧ (3000 < text.length → text.length ≤ 6000 →
      summarizerAttempts text =
          [text, jsSubstring0 text (text.length / 4) ++ truncationSuffix]
      ∧ (provider text = .err e → isAbortedErr e = false →
          containsTooLarge e.message = true →
          provider (jsSubstring0 text (text.length / 4) ++ truncationSuffix) = .ok s →
          s ≠ "" →
          (runSummarizer provider text).result = .ok (some s)
          ∧ (runSummarizer provider text).trace =
              [.create 0, .destroy 0, .create 1, .destroy 1])) := by
  constructor
  · intro hle
    refine ⟨summarizerAttempts_small hle, ?_⟩
    intro hp ha
    have hrun : runSummarizer provider text =
        { result := .ok none, display := some ("Error: " ++ e.message)
          trace := [.create 0, .destroy 0] } := by
      rw [runSummarizer, summarizerAttempts_small hle,
        runSummAtt_err_stop hp ha (Or.inr rfl)]
      simp
    exact ⟨by rw [hrun], by rw [hrun], by rw [hrun]⟩
  · intro hgt hle
    refine ⟨summarizerAttempts_mid hgt hle, ?_⟩
    intro hp ha ht hq hs
    have hrun : runSummarizer provider text =
        { result := .ok (some s), display := some s
          trace := [.create 0, .destroy 0, .create 1, .destroy 1] } := by
      rw [runSummarizer, summarizerAttempts_mid hgt hle]
      rw [runSummAtt_retry hp ha ht (by simp)]
      rw [runSummAtt_ok hq hs]
      simp
    exact ⟨by rw [hrun], by rw [hrun]⟩

/-- Witness for C10: a 3-character input has the single full-text attempt and
surfaces a too-large error immediately with one created-and-destroyed
session; a 3001-character input has exactly the full and quarter-length
attempts. -/
theorem runSummarizer_length_gate_witness :
    (summarizerAttempts "abc" = ["abc"]
      ∧ (runSummarizer (fun _ => SummOutcome.err ⟨"QuotaExceededError", "too large"⟩)
            "abc").result = .ok none
      ∧ (runSummarizer (fun _ => SummOutcome.err ⟨"QuotaExceededError", "too large"⟩)
            "abc").trace = [.create 0, .destroy 0])
    ∧ summarizerAttempts (String.mk (List.replicate 3001 'a')) =
        [String.mk (List.replicate 3001 'a'),
          jsSubstring0 (String.mk (List.replicate 3001 'a'))
              ((String.mk (List.replicate 3001 'a')).length / 4) ++ truncationSuffix] := by
  constructor
  · have happ := (runSummarizer_length_gate "abc"
      (fun _ => SummOutcome.err ⟨"QuotaExceededError", "too large"⟩)
      ⟨"QuotaExceededError", "too large"⟩ "S").1 (by decide)
    exact ⟨happ.1, (happ.2 rfl (by decide)).1, (happ.2 rfl (by decide)).2.2⟩
  · have hlen : (String.mk (List.replicate 3001 'a')).length = 3001 := by
      rw [String.length_mk, List.length_replicate]
    exact ((runSummarizer_length_gate (String.mk (List.replicate 3001 'a'))
      (fun _ => SummOutcome.err ⟨"QuotaExceededError", "too large"⟩)
      ⟨"QuotaExceededError", "too large"⟩ "S").2
      (by rw [hlen]; norm_num) (by rw [hlen]; norm_num)).1

/-! ## C2: cancellation of an in-flight generation -/

theorem generation_cancelled_ne_error (m : String) :
    "Generation cancelled" ≠ "Error: " ++ m := by
  intro hEq
  have h1 : ("Generation cancelled").data.head? = ("Error: " ++ m).data.head? := by
    rw [hEq]
  rw [String.data_append] at h1
  have h2 : (some 'G' : Option Char) = some 'E' := h1
  exact absurd h2 (by decide)

/-- C2: when the in-flight summarize call rejects with an abort-classified
error, `handleGenerateTldr` discards the partial output (the slot shows the
cancelled indicator, never an `Error:` rendering), performs no write to the
tab cache for the artifact, clears the running flag, and the one created
session was destroyed; abort classification accepts both the `AbortError`
name and, defensively, any nonempty message whose lowercased text contains
"abort". -/
theorem handleGenerateTldr_cancellation
    (provider : String → SummOutcome) (text : String) (prev : Option String)
    (e : JsError) (hp : provider text = .err e) (ha : isAbortedErr e = true) :
    handleGenerateTldrRun provider text prev =
      { display := "Generation cancelled", cacheTldr := prev, isSummarizingTldr := false }
    ∧ (∀ m : String, (handleGenerateTldrRun provider text prev).display ≠ "Error: " ++ m)
    ∧ (runSummarizer provider text).trace = [.create 0, .destroy 0]
    ∧ (∀ m : String, isAbortedErr ⟨"AbortError", m⟩ = true)
    ∧ (∀ nm m : String, m ≠ "" → jsIncludes (jsToLower m) "abort" = true →
        isAbortedErr ⟨nm, m⟩ = true) := by
  obtain ⟨rest0, hrest0⟩ := summarizerAttempts_head text
  have hrun : runSummarizer provider text =
      { result := .error e, display := none, trace := [.create 0, .destroy 0] } := by
    rw [runSummarizer, hrest0, runSummAtt_abort hp ha]
    simp
  have hout : handleGenerateTldrRun provider text prev =
      { display := "Generation cancelled", cacheTldr := prev, isSummarizingTldr := false } := by
    simp [handleGenerateTldrRun, hrun, ha]
  refine ⟨hout, ?_, by rw [hrun], ?_, ?_⟩
  · intro m
    rw [hout]
    exact generation_cancelled_ne_error m
  · intro m
    simp [isAbortedErr]
  · intro nm m hm hinc
    simp [isAbortedErr, hinc, hm]

/-- Witness for C2: a provider that rejects with a `DOMException`-style abort
error whose message carries abort wording leaves a previously cached value
untouched and shows the cancelled indicator. -/
theorem handleGenerateTldr_cancellation_witness :
    handleGenerateTldrRun
        (fun _ => SummOutcome.err ⟨"AbortError", "The user aborted a request."⟩)
        "page text" (some "cached tldr") =
      { display := "Generation cancelled", cacheTldr := some "cached tldr"
        isSummarizingTldr := false }
    ∧ isAbortedErr ⟨"DOMException", "Request aborted"⟩ = true := by
  have happ := handleGenerateTldr_cancellation
    (fun _ => SummOutcome.err ⟨"AbortError", "The user aborted a request."⟩)
    "page text" (some "cached tldr")
    ⟨"AbortError", "The user aborted a request."⟩ rfl (by decide)
  exact ⟨happ.1, happ.2.2.2.2 "DOMException" "Request aborted" (by decide) (by decide)⟩

/-! ## C7: every created session is destroyed exactly once -/

theorem countEv_pairTrace (id idx k : Nat) :
    countEv (.create id) (pairTrace idx k) =
        (if idx ≤ id ∧ id < idx + k then 1 else 0)
    ∧ countEv (.destroy id) (pairTrace idx k) =
        (if idx ≤ id ∧ id < idx + k then 1 else 0) := by
  induction k generalizing idx with
  | zero =>
    constructor <;> (simp [pairTrace, countEv]; split_ifs <;> omega)
  | succ n ih =>
    have hc := (ih (idx + 1)).1
    have hd := (ih (idx + 1)).2
    constructor
    · simp only [pairTrace, countEv, List.countP_cons] at hc ⊢
      rw [hc]
      by_cases hidx : idx = id <;> simp [hidx] <;> split_ifs <;> omega
    · simp only [pairTrace, countEv, List.countP_cons] at hd ⊢
      rw [hd]
      by_cases hidx : idx = id <;> simp [hidx] <;> split_ifs <;> omega

theorem runSummAtt_trace_pairs (provider : String → SummOutcome) :
    ∀ (as : List String) (idx : Nat) (tr : List SessEvent),
      ∃ k, k ≤ as.length
        ∧ (runSummarizerAttempts provider as idx tr).trace = tr ++ pairTrace idx k := by
  intro as
  induction as with
  | nil =>
    intro idx tr
    exact ⟨0, by simp [runSummarizerAttempts, pairTrace]⟩
  | cons a rest ih =>
    intro idx tr
    cases hpa : provider a with
    | ok s =>
      by_cases hs : s = ""
      · subst hs
        refine ⟨1, by simp, ?_⟩
        simp [runSummarizerAttempts, hpa, pairTrace]
      · refine ⟨1, by simp, ?_⟩
        rw [runSummAtt_ok hpa hs]
        simp [pairTrace]
    | err e =>
      by_cases ha : isAbortedErr e = true
      · refine ⟨1, by simp, ?_⟩
        rw [runSummAtt_abort hpa ha]
        simp [pairTrace]
      · have ha' : isAbortedErr e = false := by
          revert ha
          cases isAbortedErr e <;> simp
        by_cases hretry : containsTooLarge e.message = true ∧ rest ≠ []
        · obtain ⟨k, hk, htr⟩ := ih (idx + 1) (tr ++ [.create idx, .destroy idx])
          refine ⟨k + 1, by simp; omega, ?_⟩
          rw [runSummAtt_retry hpa ha' hretry.1 hretry.2, htr]
          simp [pairTrace]
        · have hstop : containsTooLarge e.message = false ∨ rest = [] := by
            by_cases hc : containsTooLarge e.message = true
            · right
              by_cases hr : rest = []
              · exact hr
              · exact absurd ⟨hc, hr⟩ hretry
            · left
              revert hc
              cases containsTooLarge e.message <;> simp
          refine ⟨1, by simp, ?_⟩
          rw [runSummAtt_err_stop hpa ha' hstop]
          simp [pairTrace]

/-- C7: for every provider behaviour, the summarizer's attempt loop creates
and destroys sessions in matched pairs — each session id is created at most
once and destroyed exactly as often as it is created; the streaming prompt
invocation and the quiz generation create one session and destroy it exactly
once on success, error, and cancellation alike (and destroy nothing when
creation itself fails, as no session exists). -/
theorem sessions_destroy_discipline
    (provider : String → SummOutcome) (text : String)
    (chunks : List String) (streamErr : Option JsError)
    (createRes : Except JsError Unit) (promptRes : Except JsError String) :
    (∀ id : Nat,
      countEv (.create id) (runSummarizer provider text).trace
          = countEv (.destroy id) (runSummarizer provider text).trace
      ∧ countEv (.create id) (runSummarizer provider text).trace ≤ 1)
    ∧ (runPromptApi chunks streamErr).trace = [.create 0, .destroy 0]
    ∧ (handleGenerateQuizRun createRes promptRes).trace =
        (match createRes with
         | .ok _ => [.create 0, .destroy 0]
         | .error _ => []) := by
  refine ⟨?_, rfl, ?_⟩
  · intro id
    obtain ⟨k, _, htr⟩ := runSummAtt_trace_pairs provider (summarizerAttempts text) 0 []
    rw [runSummarizer] at *
    rw [htr]
    have hc := (countEv_pairTrace id 0 k).1
    have hd := (countEv_pairTrace id 0 k).2
    constructor
    · simp only [List.nil_append]
      rw [hc, hd]
    · simp only [List.nil_append]
      rw [hc]
      split_ifs <;> omega
  · cases createRes with
    | ok u => cases promptRes <;> rfl
    | error e => rfl

/-! ## C5: item-by-item key-points translation -/

theorem cleanBody_ne_empty {b : String} (h : cleanBody b = true) : b ≠ "" := by
  unfold cleanBody at h
  simp only [Bool.and_eq_true, decide_eq_true_eq] at h
  exact h.1.1.1

theorem cleanBody_no_newline {b : String} (h : cleanBody b = true) :
    ('\n' : Char) ∉ b.data := by
  unfold cleanBody at h
  simp only [Bool.and_eq_true, decide_eq_true_eq, List.all_eq_true] at h
  intro hmem
  exact h.1.1.2 '\n' hmem rfl

theorem cleanBody_head {b : String} (h : cleanBody b = true) :
    b.data.head?.elim false Char.isWhitespace = false := by
  unfold cleanBody at h
  simp only [Bool.and_eq_true, Bool.not_eq_true'] at h
  exact h.1.2

theorem cleanBody_last {b : String} (h : cleanBody b = true) :
    b.data.getLast?.elim false Char.isWhitespace = false := by
  unfold cleanBody at h
  simp only [Bool.and_eq_true, Bool.not_eq_true'] at h
  exact h.2

theorem mapM_eq_ok {ε α β : Type} (f : α → Except ε β) (g : α → β) :
    ∀ l : List α, (∀ a ∈ l, f a = .ok (g a)) → l.mapM f = .ok (l.map g) := by
  intro l
  induction l with
  | nil => intro _; rfl
  | cons a as ih =>
    intro h
    rw [List.mapM_cons, h a (by simp), ih (fun x hx => h x (by simp [hx]))]
    rfl

theorem filterMap_map_eq_map {ι α β : Type} (mkLine : ι → α) (f : α → Option β)
    (g : ι → β) :
    ∀ items : List ι, (∀ i ∈ items, f (mkLine i) = some (g i)) →
      (items.map mkLine).filterMap f = items.map g := by
  intro items
  induction items with
  | nil => intro _; rfl
  | cons i is ih =>
    intro h
    simp only [List.map_cons, List.filterMap_cons, h i (by simp)]
    rw [ih (fun x hx => h x (by simp [hx]))]

theorem parseKeyPointItems_eq (s : String) :
    parseKeyPointItems s = (jsSplit '\n' s).filterMap parseKeyPointLine := rfl

theorem jsSplit_jsJoin (parts : List String) (hne : parts ≠ [])
    (hnl : ∀ p ∈ parts, ('\n' : Char) ∉ p.data) :
    jsSplit '\n' (jsJoin '\n' parts) = parts := by
  unfold jsSplit jsJoin
  have hd : (String.mk (List.intercalate ['\n'] (parts.map String.data))).data =
      List.intercalate ['\n'] (parts.map String.data) := rfl
  rw [hd, List.splitOn_intercalate (parts.map String.data) '\n'
    (by
      intro l hl
      obtain ⟨p, hp, hpe⟩ := List.mem_map.mp hl
      rw [← hpe]
      exact hnl p hp)
    (by simp [hne])]
  rw [List.map_map]
  have hcongr : parts.map (String.mk ∘ String.data) = parts.map id :=
    List.map_congr_left (fun a _ => str_mk_data a)
  rw [hcongr, List.map_id]

theorem importanceTagAt_mem {cs : List Char} {tag : String} {r : List Char}
    (h : importanceTagAt cs = some (tag, r)) :
    tag = "HIGH" ∨ tag = "MEDIUM" ∨ tag = "LOW" := by
  unfold importanceTagAt at h
  split_ifs at h
  · simp only [Option.some.injEq, Prod.mk.injEq] at h
    exact Or.inl h.1.symm
  · simp only [Option.some.injEq, Prod.mk.injEq] at h
    exact Or.inr (Or.inl h.1.symm)
  · simp only [Option.some.injEq, Prod.mk.injEq] at h
    exact Or.inr (Or.inr h.1.symm)

theorem parseKeyPointLine_tag_mem {l : String} {t b : String}
    (h : parseKeyPointLine l = some (t, b)) :
    t = "[HIGH]" ∨ t = "[MEDIUM]" ∨ t = "[LOW]" := by
  unfold parseKeyPointLine at h
  split at h
  · exact absurd h (by simp)
  · split at h
    · split at h
      · rename_i tag r2 heq
        simp only [Option.some.injEq, Prod.mk.injEq] at h
        rcases importanceTagAt_mem heq with h1 | h1 | h1 <;>
          rw [← h.1, h1]
        · exact Or.inl (by decide)
        · exact Or.inr (Or.inl (by decide))
        · exact Or.inr (Or.inr (by decide))
      · exact absurd h (by simp)
    · exact absurd h (by simp)

theorem parseKeyPointLine_reassembled (tagFull b : String)
    (htag : tagFull = "[HIGH]" ∨ tagFull = "[MEDIUM]" ∨ tagFull = "[LOW]")
    (hb : cleanBody b = true) :
    parseKeyPointLine ("- " ++ tagFull ++ " " ++ b) = some (tagFull, b) := by
  have hbne : b.data ≠ [] := (str_ne_empty_iff b).mp (cleanBody_ne_empty hb)
  obtain ⟨x, hx⟩ := Option.isSome_iff_exists.mp
    (List.getLast?_isSome.mpr hbne)
  have hb4 := cleanBody_last hb
  rw [hx] at hb4
  have hdrop : b.data.dropWhile Char.isWhitespace = b.data :=
    dropWhile_eq_self_of_head _ _ (cleanBody_head hb)
  rcases htag with h | h | h <;> subst h
  · have h1 : (("- " ++ "[HIGH]" ++ " " ++ b).data.head?).elim false Char.isWhitespace
        = false := by
      rw [show ("- " ++ "[HIGH]" ++ " " ++ b).data.head? = some '-' from rfl]
      decide
    have h2 : (("- " ++ "[HIGH]" ++ " " ++ b).data.getLast?).elim false Char.isWhitespace
        = false := by
      rw [String.data_append, List.getLast?_append, hx]
      simpa using hb4
    have htrim := jsTrim_eq_self _ h1 h2
    have hstep : parseKeyPointLine ("- " ++ "[HIGH]" ++ " " ++ b) =
        some ("[HIGH]", String.mk (b.data.dropWhile Char.isWhitespace)) := by
      unfold parseKeyPointLine
      rw [htrim]
      exact rfl
    rw [hstep, hdrop, str_mk_data]
  · have h1 : (("- " ++ "[MEDIUM]" ++ " " ++ b).data.head?).elim false Char.isWhitespace
        = false := by
      rw [show ("- " ++ "[MEDIUM]" ++ " " ++ b).data.head? = some '-' from rfl]
      decide
    have h2 : (("- " ++ "[MEDIUM]" ++ " " ++ b).data.getLast?).elim false Char.isWhitespace
        = false := by
      rw [String.data_append, List.getLast?_append, hx]
      simpa using hb4
    have htrim := jsTrim_eq_self _ h1 h2
    have hstep : parseKeyPointLine ("- " ++ "[MEDIUM]" ++ " " ++ b) =
        some ("[MEDIUM]", String.mk (b.data.dropWhile Char.isWhitespace)) := by
      unfold parseKeyPointLine
      rw [htrim]
      exact rfl
    rw [hstep, hdrop, str_mk_data]
  · have h1 : (("- " ++ "[LOW]" ++ " " ++ b).data.head?).elim false Char.isWhitespace
        = false := by
      rw [show ("- " ++ "[LOW]" ++ " " ++ b).data.head? = some '-' from rfl]
      decide
    have h2 : (("- " ++ "[LOW]" ++ " " ++ b).data.getLast?).elim false Char.isWhitespace
        = false := by
      rw [String.data_append, List.getLast?_append, hx]
      simpa using hb4
    have htrim := jsTrim_eq_self _ h1 h2
    have hstep : parseKeyPointLine ("- " ++ "[LOW]" ++ " " ++ b) =
        some ("[LOW]", String.mk (b.data.dropWhile Char.isWhitespace)) := by
      unfold parseKeyPointLine
      rw [htrim]
      exact rfl
    rw [hstep, hdrop, str_mk_data]

/-- C5: the translation pass for key points works item-by-item.  The example
block parses into its two tag/body items in order; with zero parsed items the
whole block is translated as a fallback; and for any block and translator
(whose per-item outputs are single-line, nonempty, and trimmed — `cleanBody`)
the pass translates only the bodies and reassembles each line with its
original tag, so that re-parsing the output yields exactly the original tags,
in the original order, each paired with its translated body. -/
theorem translateKeyPoints_item_by_item
    (text : String) (translator : String → String)
    (hne : parseKeyPointItems text ≠ [])
    (hclean : ∀ it ∈ parseKeyPointItems text,
      cleanBody (jsTrim (translator it.2)) = true) :
    parseKeyPointItems "- [HIGH] Point A\n- [MEDIUM] Point B"
        = [("[HIGH]", "Point A"), ("[MEDIUM]", "Point B")]
    ∧ (∀ (text' : String) (tr' : String → Except JsError String),
        parseKeyPointItems text' = [] →
        translateKeyPointsPreservingFormat tr' text' = tr' text')
    ∧ translateKeyPointsPreservingFormat (fun s => .ok (translator s)) text =
        .ok (jsJoin '\n' ((parseKeyPointItems text).map
          (fun it => "- " ++ it.1 ++ " " ++ jsTrim (translator it.2))))
    ∧ parseKeyPointItems (jsJoin '\n' ((parseKeyPointItems text).map
          (fun it => "- " ++ it.1 ++ " " ++ jsTrim (translator it.2))))
        = (parseKeyPointItems text).map
            (fun it => (it.1, jsTrim (translator it.2))) := by
  have hE : (parseKeyPointItems text).isEmpty = false := by
    rcases hI : (parseKeyPointItems text).isEmpty with _ | _
    · rfl
    · exact absurd (List.isEmpty_iff.mp hI) hne
  refine ⟨by decide, ?_, ?_, ?_⟩
  · intro text' tr' h
    simp [translateKeyPointsPreservingFormat, h]
  · unfold translateKeyPointsPreservingFormat
    rw [hE]
    simp only [Bool.false_eq_true, if_false]
    rw [mapM_eq_ok _ (fun it => "- " ++ it.1 ++ " " ++ jsTrim (translator it.2)) _
      (by
        intro it hit
        have hneq := cleanBody_ne_empty (hclean it hit)
        show Except.ok ("- " ++ it.1 ++ " " ++
          (if jsTrim (translator it.2) ≠ "" then jsTrim (translator it.2) else it.2)) = _
        rw [if_pos hneq])]
    rfl
  · have htags : ∀ it ∈ parseKeyPointItems text,
        it.1 = "[HIGH]" ∨ it.1 = "[MEDIUM]" ∨ it.1 = "[LOW]" := by
      intro it hit
      obtain ⟨l0, _, hpl0⟩ := List.mem_filterMap.mp hit
      exact parseKeyPointLine_tag_mem hpl0
    have hparts : ∀ p ∈ (parseKeyPointItems text).map
        (fun it => "- " ++ it.1 ++ " " ++ jsTrim (translator it.2)),
        ('\n' : Char) ∉ p.data := by
      intro p hp
      obtain ⟨it, hit, hpe⟩ := List.mem_map.mp hp
      intro hmem
      rw [← hpe, String.data_append, String.data_append, String.data_append] at hmem
      simp only [List.mem_append] at hmem
      rcases hmem with ((hm | hm) | hm) | hm
      · exact absurd hm (by decide)
      · rcases htags it hit with h1 | h1 | h1 <;> rw [h1] at hm <;>
          exact absurd hm (by decide)
      · exact absurd hm (by decide)
      · exact cleanBody_no_newline (hclean it hit) hm
    rw [parseKeyPointItems_eq (jsJoin '\n' ((parseKeyPointItems text).map
      (fun it => "- " ++ it.1 ++ " " ++ jsTrim (translator it.2))))]
    rw [jsSplit_jsJoin _ (fun hmap => hne (List.map_eq_nil_iff.mp hmap)) hparts]
    exact filterMap_map_eq_map _ _ _ _
      (fun it hit => parseKeyPointLine_reassembled it.1 (jsTrim (translator it.2))
        (htags it hit) (hclean it hit))

/-- Witness for C5: the claim's example block, translated item-by-item by a
translator that prefixes `X` to each body, re-parses to the same tags in the
same order with translated bodies. -/
theorem translateKeyPoints_item_by_item_witness :
    parseKeyPointItems "- [HIGH] Point A\n- [MEDIUM] Point B"
        = [("[HIGH]", "Point A"), ("[MEDIUM]", "Point B")]
    ∧ parseKeyPointItems (jsJoin '\n'
        ((parseKeyPointItems "- [HIGH] Point A\n- [MEDIUM] Point B").map
          (fun it => "- " ++ it.1 ++ " " ++ jsTrim ((fun s => "X" ++ s) it.2))))
        = [("[HIGH]", "XPoint A"), ("[MEDIUM]", "XPoint B")] := by
  have happ := translateKeyPoints_item_by_item "- [HIGH] Point A\n- [MEDIUM] Point B"
    (fun s => "X" ++ s) (by decide) (by decide)
  refine ⟨happ.1, ?_⟩
  rw [happ.2.2.2]
  decide

/-! ## C4: tab-scoped cache -/

theorem find?_filter_of_imp {α : Type} (p q : α → Bool) (l : List α)
    (h : ∀ x, p x = true → q x = true) :
    (l.filter q).find? p = l.find? p := by
  induction l with
  | nil => rfl
  | cons a as ih =>
    rw [List.filter_cons]
    by_cases hq : q a = true
    · rw [if_pos hq]
      cases hp : p a with
      | true => simp [List.find?_cons, hp]
      | false => simp [List.find?_cons, hp, ih]
    · have hp' : p a = false := by
        cases hpp : p a
        · rfl
        · exact absurd (h a hpp) hq
      rw [if_neg hq]
      simp [List.find?_cons, hp', ih]

theorem find?_filter_of_never {α : Type} (p q : α → Bool) (l : List α)
    (h : ∀ x, p x = true → q x = false) :
    (l.filter q).find? p = none := by
  induction l with
  | nil => rfl
  | cons a as ih =>
    rw [List.filter_cons]
    by_cases hq : q a = true
    · have hp' : p a = false := by
        cases hpp : p a
        · rfl
        · exact absurd (h a hpp) (by simp [hq])
      rw [if_pos hq]
      simp [List.find?_cons, hp', ih]
    · rw [if_neg hq]
      exact ih

theorem cacheLookup_set_self (cache : TabCache) (tabId : Nat) (e : CacheEntry) :
    cacheLookup (cacheSet cache tabId e) tabId = some e := by
  simp [cacheLookup, cacheSet, List.find?_cons]

theorem cacheLookup_set_ne (cache : TabCache) (tabId k : Nat) (e : CacheEntry)
    (hk : k ≠ tabId) :
    cacheLookup (cacheSet cache tabId e) k = cacheLookup cache k := by
  unfold cacheLookup cacheSet
  rw [List.find?_cons]
  have hhd : (decide ((tabId, e).1 = k)) = false := by
    simp
    exact fun h => hk h.symm
  rw [hhd]
  rw [find?_filter_of_imp _ _ cache
    (by
      intro x hx
      simp at hx ⊢
      rw [hx]
      exact hk)]

theorem cacheLookup_delete_self (cache : TabCache) (tabId : Nat) :
    cacheLookup (cacheDelete cache tabId) tabId = none := by
  unfold cacheLookup cacheDelete
  rw [find?_filter_of_never _ _ cache
    (by
      intro x hx
      simp at hx ⊢
      exact hx)]
  rfl

theorem cacheLookup_delete_ne (cache : TabCache) (tabId k : Nat) (hk : k ≠ tabId) :
    cacheLookup (cacheDelete cache tabId) k = cacheLookup cache k := by
  unfold cacheLookup cacheDelete
  rw [find?_filter_of_imp _ _ cache
    (by
      intro x hx
      simp at hx ⊢
      rw [hx]
      exact hk)]

theorem saveQuizChat_fields (st : PanelState) (tid? : Option Nat) :
    (saveCurrentTabQuizChatFun st tid?).display = st.display
    ∧ (saveCurrentTabQuizChatFun st tid?).currentTabId = st.currentTabId
    ∧ (saveCurrentTabQuizChatFun st tid?).isSummarizing = st.isSummarizing
    ∧ (saveCurrentTabQuizChatFun st tid?).trace = st.trace
    ∧ (saveCurrentTabQuizChatFun st tid?).extractedPageData = st.extractedPageData := by
  cases tid? with
  | none => exact ⟨rfl, rfl, rfl, rfl, rfl⟩
  | some tid =>
    unfold saveCurrentTabQuizChatFun
    split_ifs <;> exact ⟨rfl, rfl, rfl, rfl, rfl⟩

theorem saveQuizChat_noop (st : PanelState) (tid? : Option Nat)
    (hq : st.display.quizContent = none) (hd : st.display.dialogueContent = none)
    (hc : st.display.chatHistory = none) :
    saveCurrentTabQuizChatFun st tid? = st := by
  cases tid? with
  | none => rfl
  | some tid => simp [saveCurrentTabQuizChatFun, hq, hd, hc]

theorem saveQuizChat_lookup (st : PanelState) (tid? : Option Nat) (k : Nat)
    (hk : tid? ≠ some k) :
    cacheLookup (saveCurrentTabQuizChatFun st tid?).cache k = cacheLookup st.cache k := by
  cases tid? with
  | none => rfl
  | some tid =>
    by_cases hcond : ¬ st.display.quizContent.isSome = true
        ∧ ¬ st.display.dialogueContent.isSome = true
        ∧ ¬ st.display.chatHistory.isSome = true
    · simp only [saveCurrentTabQuizChatFun]
      rw [if_pos hcond]
    · simp only [saveCurrentTabQuizChatFun]
      rw [if_neg hcond]
      exact cacheLookup_set_ne _ _ _ _
        (by
          intro hkt
          exact hk (by rw [hkt]))

theorem switchPublish_fields (o : Option PageData) (stF : PanelState) :
    (switchPublish o stF).display.tldrContent = stF.display.tldrContent
    ∧ (switchPublish o stF).display.quizContent = stF.display.quizContent
    ∧ (switchPublish o stF).display.dialogueContent = stF.display.dialogueContent
    ∧ (switchPublish o stF).display.chatHistory = stF.display.chatHistory
    ∧ (switchPublish o stF).cache = stF.cache
    ∧ (switchPublish o stF).currentTabId = stF.currentTabId
    ∧ (switchPublish o stF).isSummarizing = stF.isSummarizing := by
  cases o with
  | none => exact ⟨rfl, rfl, rfl, rfl, rfl, rfl, rfl⟩
  | some pd => exact ⟨rfl, rfl, rfl, rfl, rfl, rfl, rfl⟩

theorem navPublish_fields (o : Option PageData) (stF : PanelState) :
    (navPublish o stF).display.tldrContent = stF.display.tldrContent
    ∧ (navPublish o stF).display.quizContent = stF.display.quizContent
    ∧ (navPublish o stF).display.dialogueContent = stF.display.dialogueContent
    ∧ (navPublish o stF).display.chatHistory = stF.display.chatHistory
    ∧ (navPublish o stF).cache = stF.cache
    ∧ (navPublish o stF).currentTabId = stF.currentTabId
    ∧ (navPublish o stF).isSummarizing = stF.isSummarizing := by
  cases o with
  | none => exact ⟨rfl, rfl, rfl, rfl, rfl, rfl, rfl⟩
  | some pd =>
    simp only [navPublish]
    split_ifs <;> exact ⟨rfl, rfl, rfl, rfl, rfl, rfl, rfl⟩

theorem restoreFromCache_some (st : PanelState) (tabId : Nat) (e : CacheEntry)
    (h : cacheLookup st.cache tabId = some e) :
    restoreFromCacheFun st tabId = some { st with
      extractedPageData := e.pageData
      display :=
        { tldrContent := jsTruthyStr e.tldr
          keyPointsContent := jsTruthyStr e.keyPoints
          quizContent := jsTruthyStr e.quizHtml
          dialogueContent := jsTruthyStr e.dialogueHtml
          chatHistory := jsTruthyStr e.chatHtml
          pageInfoShown := true } } := by
  unfold restoreFromCacheFun
  rw [h]

theorem restoreFromCache_none (st : PanelState) (tabId : Nat)
    (h : cacheLookup st.cache tabId = none) :
    restoreFromCacheFun st tabId = none := by
  unfold restoreFromCacheFun
  rw [h]

theorem switchToTab_eq (acc : Nat → Bool) (extract : Nat → Option PageData)
    (st : PanelState) (tabId : Nat)
    (h1 : st.currentTabId ≠ some tabId) (h2 : st.isSummarizing = false)
    (h3 : acc tabId = true) :
    switchToTabFun acc extract st tabId =
      (match restoreFromCacheFun
          { saveCurrentTabQuizChatFun st st.currentTabId with
            currentTabId := some tabId } tabId with
       | some st' => st'
       | none =>
         switchExtract extract
           (showFreshStateFun
             { saveCurrentTabQuizChatFun st st.currentTabId with
               currentTabId := some tabId }) tabId) := by
  unfold switchToTabFun switchToTabBody
  rw [if_neg h1]
  have hsum : (saveCurrentTabQuizChatFun st st.currentTabId).isSummarizing = false := by
    rw [(saveQuizChat_fields st st.currentTabId).2.2.1, h2]
  rw [if_neg (by simp [hsum])]
  rw [if_neg (by simp [h3])]

theorem saveTldr_eq (st : PanelState) (a : String) (tid : Nat)
    (hcur : st.currentTabId = some tid) :
    ∃ e : CacheEntry, e.tldr = some a ∧
      saveTldrToCacheFun st a =
        { st with
          cache := cacheSet st.cache tid e
          display := { st.display with tldrContent := some a } } := by
  unfold saveTldrToCacheFun
  rw [hcur]
  exact ⟨_, rfl, rfl⟩

theorem navigate_current (extract : Nat → Option PageData) (st : PanelState)
    (tabId : Nat) (u : Bool) (hcur : st.currentTabId = some tabId) :
    cacheLookup (onTabNavigatedFun extract st tabId u).cache tabId = none
    ∧ (onTabNavigatedFun extract st tabId u).display.tldrContent = none
    ∧ (onTabNavigatedFun extract st tabId u).display.quizContent = none
    ∧ (onTabNavigatedFun extract st tabId u).display.dialogueContent = none
    ∧ (onTabNavigatedFun extract st tabId u).display.chatHistory = none
    ∧ (onTabNavigatedFun extract st tabId u).currentTabId = some tabId
    ∧ (onTabNavigatedFun extract st tabId u).isSummarizing = st.isSummarizing := by
  unfold onTabNavigatedFun navExtract
  rw [if_pos hcur]
  by_cases hu : u = true
  · rw [if_neg (by simp [hu])]
    have hf := navPublish_fields (extract tabId)
      { showFreshStateFun { st with cache := cacheDelete st.cache tabId } with
        trace := (showFreshStateFun { st with cache := cacheDelete st.cache tabId }).trace
          ++ [.extractText] }
    refine ⟨?_, ?_, ?_, ?_, ?_, ?_, ?_⟩
    · rw [hf.2.2.2.2.1]
      exact cacheLookup_delete_self _ _
    · rw [hf.1]
      rfl
    · rw [hf.2.1]
      rfl
    · rw [hf.2.2.1]
      rfl
    · rw [hf.2.2.2.1]
      rfl
    · rw [hf.2.2.2.2.2.1]
      exact hcur
    · rw [hf.2.2.2.2.2.2]
      rfl
  · rw [if_pos (by simp [hu])]
    refine ⟨?_, rfl, rfl, rfl, rfl, hcur, rfl⟩
    exact cacheLookup_delete_self _ _

theorem switchExtract_lookup (extract : Nat → Option PageData) (stF : PanelState)
    (tabId k : Nat) :
    cacheLookup (switchExtract extract stF tabId).cache k = cacheLookup stF.cache k := by
  unfold switchExtract
  rw [(switchPublish_fields (extract tabId) _).2.2.2.2.1]

theorem switchExtract_basic (extract : Nat → Option PageData) (stF : PanelState)
    (tabId : Nat) :
    (switchExtract extract stF tabId).currentTabId = stF.currentTabId
    ∧ (switchExtract extract stF tabId).isSummarizing = stF.isSummarizing
    ∧ (switchExtract extract stF tabId).display.tldrContent = stF.display.tldrContent := by
  unfold switchExtract
  exact ⟨(switchPublish_fields _ _).2.2.2.2.2.1,
    (switchPublish_fields _ _).2.2.2.2.2.2, (switchPublish_fields _ _).1⟩

/-- C4: per-tab cache behaviour.  From any panel state viewing tab `t1` (no
generation running, no pending quiz/dialogue/chat content, both tabs
accessible): storing a TL;DR `a` for `t1`, switching to a distinct tab `t2`
and back republishes `a` into the render layer from the cache — with no new
panel action (in particular no generation and no re-extraction) during the
switch back; navigating `t1` then deletes `t1`'s entry and clears the slot,
and a subsequent round trip to `t1` shows fresh (empty) state; a closed tab's
entry is deleted; and the cache primitives never read or write another tab's
key. -/
theorem tabCache_per_tab
    (t1 t2 : Nat) (acc : Nat → Bool) (extract : Nat → Option PageData)
    (st : PanelState) (a : String) (u : Bool)
    (hne : t1 ≠ t2)
    (hcur : st.currentTabId = some t1)
    (hrun : st.isSummarizing = false)
    (hacc1 : acc t1 = true) (hacc2 : acc t2 = true)
    (ha : a ≠ "")
    (hq : st.display.quizContent = none)
    (hd : st.display.dialogueContent = none)
    (hc : st.display.chatHistory = none) :
    (switchToTabFun acc extract
        (switchToTabFun acc extract (saveTldrToCacheFun st a) t2) t1).display.tldrContent
      = some a
    ∧ (cacheLookup (switchToTabFun acc extract
        (switchToTabFun acc extract (saveTldrToCacheFun st a) t2) t1).cache t1).map
          CacheEntry.tldr = some (some a)
    ∧ (switchToTabFun acc extract
        (switchToTabFun acc extract (saveTldrToCacheFun st a) t2) t1).trace
      = (switchToTabFun acc extract (saveTldrToCacheFun st a) t2).trace
    ∧ cacheLookup (onTabNavigatedFun extract (switchToTabFun acc extract
        (switchToTabFun acc extract (saveTldrToCacheFun st a) t2) t1) t1 u).cache t1
      = none
    ∧ (onTabNavigatedFun extract (switchToTabFun acc extract
        (switchToTabFun acc extract (saveTldrToCacheFun st a) t2) t1) t1 u).display.tldrContent
      = none
    ∧ (switchToTabFun acc extract (switchToTabFun acc extract
        (onTabNavigatedFun extract (switchToTabFun acc extract
          (switchToTabFun acc extract (saveTldrToCacheFun st a) t2) t1) t1 u) t2) t1).display.tldrContent
      = none
    ∧ (∀ (cache : TabCache) (tid : Nat) (e : CacheEntry) (k : Nat), k ≠ tid →
        cacheLookup (cacheSet cache tid e) k = cacheLookup cache k
        ∧ cacheLookup (cacheDelete cache tid) k = cacheLookup cache k)
    ∧ (∀ (st' : PanelState) (t : Nat),
        cacheLookup (onTabRemovedFun st' t).cache t = none) := by
  obtain ⟨e1, he1, hst1⟩ := saveTldr_eq st a t1 hcur
  have f1cur : (saveTldrToCacheFun st a).currentTabId = some t1 := by
    rw [hst1]
    exact hcur
  have f1sum : (saveTldrToCacheFun st a).isSummarizing = false := by
    rw [hst1]
    exact hrun
  have f1q : (saveTldrToCacheFun st a).display.quizContent = none := by
    rw [hst1]
    exact hq
  have f1d : (saveTldrToCacheFun st a).display.dialogueContent = none := by
    rw [hst1]
    exact hd
  have f1c : (saveTldrToCacheFun st a).display.chatHistory = none := by
    rw [hst1]
    exact hc
  have f1lookup : cacheLookup (saveTldrToCacheFun st a).cache t1 = some e1 := by
    rw [hst1]
    exact cacheLookup_set_self _ _ _
  have hsw2 := switchToTab_eq acc extract (saveTldrToCacheFun st a) t2
    (by
      rw [f1cur]
      intro hcon
      exact hne (Option.some.inj hcon))
    f1sum hacc2
  rw [saveQuizChat_noop _ _ f1q f1d f1c] at hsw2
  have hST2 : (switchToTabFun acc extract (saveTldrToCacheFun st a) t2).cache
        = (saveTldrToCacheFun st a).cache
      ∧ (switchToTabFun acc extract (saveTldrToCacheFun st a) t2).currentTabId = some t2
      ∧ (switchToTabFun acc extract (saveTldrToCacheFun st a) t2).isSummarizing = false := by
    cases hlook2 : cacheLookup (saveTldrToCacheFun st a).cache t2 with
    | some e2 =>
      rw [hsw2, restoreFromCache_some
        { saveTldrToCacheFun st a with currentTabId := some t2 } t2 e2 hlook2]
      exact ⟨rfl, rfl, f1sum⟩
    | none =>
      rw [hsw2, restoreFromCache_none
        { saveTldrToCacheFun st a with currentTabId := some t2 } t2 hlook2]
      refine ⟨?_, ?_, ?_⟩
      · exact (switchPublish_fields (extract t2) _).2.2.2.2.1
      · exact (switchPublish_fields (extract t2) _).2.2.2.2.2.1
      · exact ((switchPublish_fields (extract t2) _).2.2.2.2.2.2).trans f1sum
  have hcur2ne : (switchToTabFun acc extract (saveTldrToCacheFun st a) t2).currentTabId
      ≠ some t1 := by
    rw [hST2.2.1]
    intro hcon
    exact hne (Option.some.inj hcon).symm
  have hlk3 : cacheLookup (saveCurrentTabQuizChatFun
      (switchToTabFun acc extract (saveTldrToCacheFun st a) t2)
      (switchToTabFun acc extract (saveTldrToCacheFun st a) t2).currentTabId).cache t1
      = some e1 := by
    rw [saveQuizChat_lookup _ _ _ hcur2ne, hST2.1, f1lookup]
  have hsw3 := switchToTab_eq acc extract
    (switchToTabFun acc extract (saveTldrToCacheFun st a) t2) t1 hcur2ne hST2.2.2 hacc1
  rw [restoreFromCache_some
    { saveCurrentTabQuizChatFun
        (switchToTabFun acc extract (saveTldrToCacheFun st a) t2)
        (switchToTabFun acc extract (saveTldrToCacheFun st a) t2).currentTabId with
      currentTabId := some t1 } t1 e1 hlk3] at hsw3
  have hA : (switchToTabFun acc extract
      (switchToTabFun acc extract (saveTldrToCacheFun st a) t2) t1).display.tldrContent
      = some a := by
    rw [hsw3]
    show jsTruthyStr e1.tldr = some a
    rw [he1]
    simp [jsTruthyStr, ha]
  have hB : (cacheLookup (switchToTabFun acc extract
      (switchToTabFun acc extract (saveTldrToCacheFun st a) t2) t1).cache t1).map
        CacheEntry.tldr = some (some a) := by
    rw [hsw3]
    show (cacheLookup (saveCurrentTabQuizChatFun
      (switchToTabFun acc extract (saveTldrToCacheFun st a) t2)
      (switchToTabFun acc extract (saveTldrToCacheFun st a) t2).currentTabId).cache t1).map
        CacheEntry.tldr = some (some a)
    rw [hlk3]
    simp [he1]
  have hC : (switchToTabFun acc extract
      (switchToTabFun acc extract (saveTldrToCacheFun st a) t2) t1).trace
      = (switchToTabFun acc extract (saveTldrToCacheFun st a) t2).trace := by
    rw [hsw3]
    show (saveCurrentTabQuizChatFun
      (switchToTabFun acc extract (saveTldrToCacheFun st a) t2)
      (switchToTabFun acc extract (saveTldrToCacheFun st a) t2).currentTabId).trace = _
    exact (saveQuizChat_fields _ _).2.2.2.1
  have f3cur : (switchToTabFun acc extract
      (switchToTabFun acc extract (saveTldrToCacheFun st a) t2) t1).currentTabId
      = some t1 := by
    rw [hsw3]
  have f3sum : (switchToTabFun acc extract
      (switchToTabFun acc extract (saveTldrToCacheFun st a) t2) t1).isSummarizing
      = false := by
    rw [hsw3]
    show (saveCurrentTabQuizChatFun
      (switchToTabFun acc extract (saveTldrToCacheFun st a) t2)
      (switchToTabFun acc extract (saveTldrToCacheFun st a) t2).currentTabId).isSummarizing
      = false
    rw [(saveQuizChat_fields _ _).2.2.1]
    exact hST2.2.2
  have hnav := navigate_current extract (switchToTabFun acc extract
    (switchToTabFun acc extract (saveTldrToCacheFun st a) t2) t1) t1 u f3cur
  have f4sum : (onTabNavigatedFun extract (switchToTabFun acc extract
      (switchToTabFun acc extract (saveTldrToCacheFun st a) t2) t1) t1 u).isSummarizing
      = false := by
    rw [hnav.2.2.2.2.2.2]
    exact f3sum
  have hsw5 := switchToTab_eq acc extract
    (onTabNavigatedFun extract (switchToTabFun acc extract
      (switchToTabFun acc extract (saveTldrToCacheFun st a) t2) t1) t1 u) t2
    (by
      rw [hnav.2.2.2.2.2.1]
      intro hcon
      exact hne (Option.some.inj hcon))
    f4sum hacc2
  rw [saveQuizChat_noop _ _ hnav.2.2.1 hnav.2.2.2.1 hnav.2.2.2.2.1] at hsw5
  have hST5 : cacheLookup (switchToTabFun acc extract
        (onTabNavigatedFun extract (switchToTabFun acc extract
          (switchToTabFun acc extract (saveTldrToCacheFun st a) t2) t1) t1 u) t2).cache t1
        = none
      ∧ (switchToTabFun acc extract
        (onTabNavigatedFun extract (switchToTabFun acc extract
          (switchToTabFun acc extract (saveTldrToCacheFun st a) t2) t1) t1 u) t2).currentTabId
        = some t2
      ∧ (switchToTabFun acc extract
        (onTabNavigatedFun extract (switchToTabFun acc extract
          (switchToTabFun acc extract (saveTldrToCacheFun st a) t2) t1) t1 u) t2).isSummarizing
        = false := by
    cases hlook5 : cacheLookup (onTabNavigatedFun extract (switchToTabFun acc extract
        (switchToTabFun acc extract (saveTldrToCacheFun st a) t2) t1) t1 u).cache t2 with
    | some e5 =>
      rw [hsw5, restoreFromCache_some
        { onTabNavigatedFun extract (switchToTabFun acc extract
            (switchToTabFun acc extract (saveTldrToCacheFun st a) t2) t1) t1 u with
          currentTabId := some t2 } t2 e5 hlook5]
      exact ⟨hnav.1, rfl, f4sum⟩
    | none =>
      rw [hsw5, restoreFromCache_none
        { onTabNavigatedFun extract (switchToTabFun acc extract
            (switchToTabFun acc extract (saveTldrToCacheFun st a) t2) t1) t1 u with
          currentTabId := some t2 } t2 hlook5]
      refine ⟨?_, ?_, ?_⟩
      · rw [switchExtract_lookup]
        exact hnav.1
      · exact (switchExtract_basic _ _ _).1
      · exact ((switchExtract_basic _ _ _).2.1).trans f4sum
  have hcur5ne : (switchToTabFun acc extract
      (onTabNavigatedFun extract (switchToTabFun acc extract
        (switchToTabFun acc extract (saveTldrToCacheFun st a) t2) t1) t1 u) t2).currentTabId
      ≠ some t1 := by
    rw [hST5.2.1]
    intro hcon
    exact hne (Option.some.inj hcon).symm
  have hlk6 : cacheLookup (saveCurrentTabQuizChatFun
      (switchToTabFun acc extract
        (onTabNavigatedFun extract (switchToTabFun acc extract
          (switchToTabFun acc extract (saveTldrToCacheFun st a) t2) t1) t1 u) t2)
      (switchToTabFun acc extract
        (onTabNavigatedFun extract (switchToTabFun acc extract
          (switchToTabFun acc extract (saveTldrToCacheFun st a) t2) t1) t1 u) t2).currentTabId).cache
      t1 = none := by
    rw [saveQuizChat_lookup _ _ _ hcur5ne]
    exact hST5.1
  have hsw6 := switchToTab_eq acc extract
    (switchToTabFun acc extract
      (onTabNavigatedFun extract (switchToTabFun acc extract
        (switchToTabFun acc extract (saveTldrToCacheFun st a) t2) t1) t1 u) t2) t1
    hcur5ne hST5.2.2 hacc1
  rw [restoreFromCache_none
    { saveCurrentTabQuizChatFun
        (switchToTabFun acc extract
          (onTabNavigatedFun extract (switchToTabFun acc extract
            (switchToTabFun acc extract (saveTldrToCacheFun st a) t2) t1) t1 u) t2)
        (switchToTabFun acc extract
          (onTabNavigatedFun extract (switchToTabFun acc extract
            (switchToTabFun acc extract (saveTldrToCacheFun st a) t2) t1) t1 u) t2).currentTabId with
      currentTabId := some t1 } t1 hlk6] at hsw6
  have hE : (switchToTabFun acc extract (switchToTabFun acc extract
      (onTabNavigatedFun extract (switchToTabFun acc extract
        (switchToTabFun acc extract (saveTldrToCacheFun st a) t2) t1) t1 u) t2) t1).display.tldrContent
      = none := by
    rw [hsw6]
    exact ((switchExtract_basic _ _ _).2.2).trans rfl
  refine ⟨hA, hB, hC, hnav.1, hnav.2.1, hE, ?_, ?_⟩
  · intro cache tid e k hk
    exact ⟨cacheLookup_set_ne cache tid k e hk, cacheLookup_delete_ne cache tid k hk⟩
  · intro st' t
    exact cacheLookup_delete_self _ _

/-- Witness for C4: starting from an empty panel on tab 1 with an
all-accessible tab oracle and an extraction service that always fails,
storing `"A"`, switching 1 → 2 → 1 redisplays `"A"`, and navigating tab 1
deletes its entry and clears the slot. -/
theorem tabCache_per_tab_witness :
    (switchToTabFun (fun _ => true) (fun _ => none)
        (switchToTabFun (fun _ => true) (fun _ => none)
          (saveTldrToCacheFun ⟨[], some 1, freshDisplay, none, false, []⟩ "A") 2)
        1).display.tldrContent = some "A"
    ∧ cacheLookup (onTabNavigatedFun (fun _ => none)
        (switchToTabFun (fun _ => true) (fun _ => none)
          (switchToTabFun (fun _ => true) (fun _ => none)
            (saveTldrToCacheFun ⟨[], some 1, freshDisplay, none, false, []⟩ "A") 2)
          1) 1 true).cache 1 = none := by
  have happ := tabCache_per_tab 1 2 (fun _ => true) (fun _ => none)
    ⟨[], some 1, freshDisplay, none, false, []⟩ "A" true
    (by decide) rfl rfl rfl rfl (by decide) rfl rfl rfl
  exact ⟨happ.1, happ.2.2.2.1⟩

end SmartPageDigest
